import Mathlib

/-!
Verification of the VM-management sample scripts.

The repository holds three variants of the same orchestration script:
* variant `V1` : the first document of `src/index.ts` (old-style SDK clients,
  generic `deleteResource`, full teardown VM → NIC → IP → VNet);
* variant `V2` : the second document of `src/index.ts` (storage-account variant,
  year-including name suffix, deletes only the VM);
* variant `P0` : `src/unnamed/part_000` (new-style SDK with
  `beginCreateOrUpdateAndWait` + `get` per create, awaited deletes).

The embedding models each remote call as a pair of trace events (the moment the
call is issued and the moment its promise settles), console output as trace
events, and `process.exit` as a third, uncatchable outcome.  Each driver is a
deterministic function of the environment variable, the wall-clock reading made
by `getNameSuffix`, and an oracle (`Api`) giving the settled outcome of each
awaited remote call site.
-/

set_option maxHeartbeats 1000000
set_option maxRecDepth 8000

namespace VmSample

/-! ## The naming helper (`getNameSuffix`) -/

/-- A wall-clock reading, with the fields exactly as the ECMAScript `Date`
accessors report them: `month` is the zero-based month index returned by
`Date.getMonth()` (0 = January .. 11 = December); `day` is `getDate()`
(1-based); `year` is `getFullYear()`. -/
structure JsDate where
  year : Nat
  month : Nat
  day : Nat
  hour : Nat
  minute : Nat
  second : Nat
deriving DecidableEq, Repr

def JsDate.getFullYear (d : JsDate) : Nat := d.year

def JsDate.getMonth (d : JsDate) : Nat := d.month

def JsDate.getDate (d : JsDate) : Nat := d.day

def JsDate.getHours (d : JsDate) : Nat := d.hour

def JsDate.getMinutes (d : JsDate) : Nat := d.minute

def JsDate.getSeconds (d : JsDate) : Nat := d.second

/-- The field ranges an ECMAScript `Date` can report. -/
def ValidDate (d : JsDate) : Prop :=
  d.month ≤ 11 ∧ 1 ≤ d.day ∧ d.day ≤ 31 ∧ d.hour ≤ 23 ∧ d.minute ≤ 59 ∧ d.second ≤ 59

instance (d : JsDate) : Decidable (ValidDate d) := by
  unfold ValidDate; infer_instance

/-- The ordinary (one-based) calendar month of a reading:
`getMonth()` is this number minus one. -/
def calendarMonth (d : JsDate) : Nat := d.month + 1

/-- JavaScript `s.slice(-n)` for `n ≥ 1`: the last `n` characters of `s`
(all of `s` when `s` is shorter than `n`). -/
def sliceLast (s : String) (n : Nat) : String :=
  ⟨s.data.drop (s.data.length - n)⟩

/-- The inner `pad` helper of `getNameSuffix`:
`(padString + num).slice(-n)` with `padString = "0".repeat(n)`.
The number is rendered in decimal, as JavaScript string coercion does. -/
def pad (n : Nat) (num : Nat) : String :=
  let padString : String := ⟨List.replicate n '0'⟩
  sliceLast (padString ++ toString num) n

/-- `getNameSuffix` of variants `V1` and `P0` (identical source text):
month, day, hour, minute, second, each through `pad 2`.  The source reads
`new Date()`; the embedding takes that reading as the argument `now`. -/
def getNameSuffix (now : JsDate) : String :=
  pad 2 now.getMonth ++ pad 2 now.getDate ++ pad 2 now.getHours
    ++ pad 2 now.getMinutes ++ pad 2 now.getSeconds

/-- `getNameSuffix` of variant `V2`: `now.getFullYear() + pad(2, …) + …`.
JavaScript coerces the number through its decimal rendering, unpadded. -/
def getNameSuffixY (now : JsDate) : String :=
  toString now.getFullYear ++ pad 2 now.getMonth ++ pad 2 now.getDate
    ++ pad 2 now.getHours ++ pad 2 now.getMinutes ++ pad 2 now.getSeconds

/-! ## The resource data model (the SDK record types, restricted to the
fields this repository touches; every field is optional in the SDK). -/

structure Subnet where
  name : Option String := none
  addressPrefix : Option String := none
deriving DecidableEq, Repr

structure AddressSpace where
  addressPrefixes : Option (List String) := none
deriving DecidableEq, Repr

structure VirtualNetwork where
  name : Option String := none
  location : Option String := none
  addressSpace : Option AddressSpace := none
  subnets : Option (List Subnet) := none
deriving DecidableEq, Repr

structure DnsSettings where
  domainNameLabel : Option String := none
deriving DecidableEq, Repr

structure PublicIPAddress where
  name : Option String := none
  location : Option String := none
  publicIPAllocationMethod : Option String := none
  dnsSettings : Option DnsSettings := none
deriving DecidableEq, Repr

structure IpConfiguration where
  name : Option String := none
  privateIPAllocationMethod : Option String := none
  subnet : Option Subnet := none
  publicIPAddress : Option PublicIPAddress := none
deriving DecidableEq, Repr

structure NetworkInterface where
  name : Option String := none
  location : Option String := none
  id : Option String := none
  ipConfigurations : Option (List IpConfiguration) := none
deriving DecidableEq, Repr

structure HardwareProfile where
  vmSize : Option String := none
deriving DecidableEq, Repr

structure OsProfile where
  computerName : Option String := none
  adminUsername : Option String := none
  adminPassword : Option String := none
deriving DecidableEq, Repr

structure NetworkInterfaceReference where
  primary : Option Bool := none
  id : Option String := none
deriving DecidableEq, Repr

structure NetworkProfile where
  networkInterfaces : Option (List NetworkInterfaceReference) := none
deriving DecidableEq, Repr

structure ImageReference where
  sku : Option String := none
  publisher : Option String := none
  version : Option String := none
  offer : Option String := none
deriving DecidableEq, Repr

structure ManagedDisk where
  storageAccountType : Option String := none
deriving DecidableEq, Repr

structure OsDisk where
  caching : Option String := none
  managedDisk : Option ManagedDisk := none
  name : Option String := none
  createOption : Option String := none
deriving DecidableEq, Repr

structure StorageProfile where
  imageReference : Option ImageReference := none
  osDisk : Option OsDisk := none
deriving DecidableEq, Repr

structure VirtualMachine where
  name : Option String := none
  location : Option String := none
  vmId : Option String := none
  provisioningState : Option String := none
  hardwareProfile : Option HardwareProfile := none
  osProfile : Option OsProfile := none
  networkProfile : Option NetworkProfile := none
  storageProfile : Option StorageProfile := none
deriving DecidableEq, Repr

/-- JavaScript template-literal interpolation of a possibly-`undefined`
string field. -/
def js (v : Option String) : String :=
  match v with
  | none => "undefined"
  | some s => s

/-! ## Traces, remote calls and the run monad -/

/-- The identity of a remote call site.  `vmListAll k` carries `k ∈ {0, 1}` to
distinguish the driver's first and second `listAll` invocation. -/
inductive RCall where
  | login
  | vmListAll (k : Nat)
  | vnetCreateOrUpdate (rg name : String)
  | vnetGet (rg name : String)
  | ipCreateOrUpdate (rg name : String)
  | ipGet (rg name : String)
  | nicCreateOrUpdate (rg name : String)
  | nicGet (rg name : String)
  | vmCreateOrUpdate (rg name : String)
  | vmGet (rg name : String)
  | vmDelete (rg name : String)
  | nicDelete (rg name : String)
  | ipDelete (rg name : String)
  | vnetDelete (rg name : String)
deriving DecidableEq, Repr

/-- One observable step of a run: console output, the instant a remote call is
issued, the instant its promise fulfills or rejects, or `process.exit`. -/
inductive Event where
  | consoleLog (msg : String)
  | consoleError (msg : String)
  | callStart (c : RCall)
  | callEnd (c : RCall)
  | callFail (c : RCall)
  | exitProc (code : Nat)
deriving DecidableEq, Repr

/-- The settled outcome of an awaited remote call: fulfilled with a value, or
rejected with an error message. -/
abbrev Res (α : Type) := Except String α

/-- How a (partial) run finishes: normally, with a pending exception, or with a
`process.exit` (which no `catch` intercepts). -/
inductive Outcome (α : Type) where
  | ok (a : α)
  | err (msg : String)
  | exited (code : Nat)
deriving Repr, DecidableEq

/-- A run: the events it emitted, and how it finished. -/
structure Run (α : Type) where
  events : List Event
  out : Outcome α

def Run.bind {α β : Type} (x : Run α) (f : α → Run β) : Run β :=
  match x with
  | ⟨ev, .ok a⟩ => ⟨ev ++ (f a).events, (f a).out⟩
  | ⟨ev, .err m⟩ => ⟨ev, .err m⟩
  | ⟨ev, .exited c⟩ => ⟨ev, .exited c⟩

instance : Monad Run where
  pure a := ⟨[], .ok a⟩
  bind := Run.bind

def logLine (msg : String) : Run Unit := ⟨[.consoleLog msg], .ok ()⟩

/-- Several consecutive `console.log` lines. -/
def logLines (msgs : List String) : Run Unit := ⟨msgs.map .consoleLog, .ok ()⟩

/-- An awaited remote call: issuing the request and suspending until its
promise settles; a rejection becomes a pending exception. -/
def remote {α : Type} (c : RCall) (r : Res α) : Run α :=
  match r with
  | .ok a => ⟨[.callStart c, .callEnd c], .ok a⟩
  | .error m => ⟨[.callStart c, .callFail c], .err m⟩

/-- `await`ing an already-issued promise (used by the `V1` driver for the
response `deleteResource` returns without awaiting). -/
def awaitPending (c : RCall) (r : Res Unit) : Run Unit :=
  match r with
  | .ok _ => ⟨[.callEnd c], .ok ()⟩
  | .error m => ⟨[.callFail c], .err m⟩

/-- The oracle: the settled outcome of each awaited remote call site.  A field
is consulted only when the corresponding call site runs; the `…Wait`/`…Get`
fields belong to the `P0` variant's `beginCreateOrUpdateAndWait`/`get` pairs. -/
structure Api where
  login : Res Unit := .ok ()
  listAll1 : Res (List VirtualMachine) := .ok []
  listAll2 : Res (List VirtualMachine) := .ok []
  vnetCreate : Res VirtualNetwork := .ok {}
  ipCreate : Res PublicIPAddress := .ok {}
  nicCreate : Res NetworkInterface := .ok {}
  vmCreate : Res VirtualMachine := .ok {}
  vnetCreateWait : Res Unit := .ok ()
  ipCreateWait : Res Unit := .ok ()
  nicCreateWait : Res Unit := .ok ()
  vmCreateWait : Res Unit := .ok ()
  vnetGet : Res VirtualNetwork := .ok {}
  ipGet : Res PublicIPAddress := .ok {}
  nicGet : Res NetworkInterface := .ok {}
  vmGet : Res VirtualMachine := .ok {}
  vmDelete : Res Unit := .ok ()
  nicDelete : Res Unit := .ok ()
  ipDelete : Res Unit := .ok ()
  vnetDelete : Res Unit := .ok ()

/-- `getSubscriptionId` (identical in all three variants): reads the
`AZURE_SUBSCRIPTION_ID` environment variable; on a falsy value (unset, or
the empty string) prints a diagnostic and calls `process.exit(1)`. -/
def getSubscriptionId (env : Option String) : Run String :=
  match env with
  | none => ⟨[.consoleError "Please set Azure subscription environmental variable",
              .exitProc 1], .exited 1⟩
  | some s =>
    if s = "" then
      ⟨[.consoleError "Please set Azure subscription environmental variable",
        .exitProc 1], .exited 1⟩
    else ⟨[], .ok s⟩

/-- The exit status of the finished process: `process.exit c` gives `c`; any
other way of finishing (including the caught-error path) gives `0`. -/
def processExitCode (r : Run Unit) : Nat :=
  match r.out with
  | .exited c => c
  | _ => 0

/-- The `V1`/`P0` top-level `catch`: `console.error(restError.message)`.  An
`exited` outcome is a `process.exit`, which no `catch` intercepts. -/
def tryCatchLogMessage (body : Run Unit) : Run Unit :=
  match body with
  | ⟨ev, .ok a⟩ => ⟨ev, .ok a⟩
  | ⟨ev, .err m⟩ => ⟨ev ++ [.consoleError m], .ok ()⟩
  | ⟨ev, .exited c⟩ => ⟨ev, .exited c⟩

/-- Stand-in for `JSON.stringify(error, undefined, " ")` in the `V2` `catch`:
the embedding carries an error as its message string, so the serialized object
is rendered from that message. -/
def jsonStringify (m : String) : String :=
  "\x7b \"message\": \"" ++ m ++ "\" \x7d"

/-- The `V2` top-level `catch`: `console.error(restError.message)` followed by
`console.error(JSON.stringify(error, undefined, " "))`. -/
def tryCatchLogMessageAndJson (body : Run Unit) : Run Unit :=
  match body with
  | ⟨ev, .ok a⟩ => ⟨ev, .ok a⟩
  | ⟨ev, .err m⟩ => ⟨ev ++ [.consoleError m, .consoleError (jsonStringify m)], .ok ()⟩
  | ⟨ev, .exited c⟩ => ⟨ev, .exited c⟩

/-! ## Variant `V1` (first document of `src/index.ts`) -/

namespace V1

/-- `getAzureClients` of `V1`/`V2`: awaits `interactiveLogin()` and builds the
management clients, each scoped to the subscription id (the only client state
the scripts read back is `subscriptionId`, so a client is embedded as that
string). -/
def getAzureClients (subscriptionId : String) (r : Res Unit) : Run String := do
  let _ ← remote .login r
  pure subscriptionId

/-- `listVirtualMachines` of `V1`/`V2`: logs intent, awaits `listAll`, logs the
count and then one line per machine, and returns the list. -/
def listVirtualMachines (subId : String) (k : Nat) (r : Res (List VirtualMachine)) :
    Run (List VirtualMachine) := do
  logLine ("Listing virtual machine in " ++ subId ++ " subscription")
  let virtualMachines ← remote (.vmListAll k) r
  logLine ("Found " ++ toString virtualMachines.length ++ " virtual machines:")
  logLines (virtualMachines.enum.map fun p =>
    toString p.1 ++ "): " ++ js p.2.name ++ "\t\t" ++ js p.2.location ++ "\t"
      ++ js p.2.provisioningState)
  pure virtualMachines

/-- The hard-coded default `parameters` of `createVirtualNetwork`. -/
def defaultVirtualNetworkParameters (name : String) : VirtualNetwork :=
  { location := some "eastus2"
    addressSpace := some { addressPrefixes := some ["10.0.0.0/16"] }
    subnets := some [{ name := some ("sub" ++ name), addressPrefix := some "10.0.0.0/24" }] }

def createVirtualNetwork (subId rg name : String) (parameters : Option VirtualNetwork)
    (r : Res VirtualNetwork) : Run VirtualNetwork := do
  let _params := parameters.getD (defaultVirtualNetworkParameters name)
  logLine ("Creating \"" ++ name ++ "\" virtual network in " ++ rg
    ++ " resource group in " ++ subId ++ " subscription")
  let virtualNetwork ← remote (.vnetCreateOrUpdate rg name) r
  logLine ("Virtual network \"" ++ js virtualNetwork.name ++ " was created successfully")
  pure virtualNetwork

/-- The hard-coded default `parameters` of `createPublicIpAddress`. -/
def defaultPublicIpParameters (name : String) : PublicIPAddress :=
  { location := some "eastus2"
    publicIPAllocationMethod := some "Dynamic"
    dnsSettings := some { domainNameLabel := some name } }

def createPublicIpAddress (subId rg name : String) (parameters : Option PublicIPAddress)
    (r : Res PublicIPAddress) : Run PublicIPAddress := do
  let _params := parameters.getD (defaultPublicIpParameters name)
  logLine ("Creating \"" ++ name ++ "\" public IP address in " ++ rg
    ++ " resource group in " ++ subId ++ " subscription")
  let publicIPAddress ← remote (.ipCreateOrUpdate rg name) r
  logLine ("Virtual network \"" ++ js publicIPAddress.name ++ " was created successfully")
  pure publicIPAddress

/-- The default `parameters` of `createNetworkInterface`.  Its `subnet` is
`virtualNetwork.subnets![0]`: the non-null assertion throws a `TypeError` when
`subnets` is `undefined`, and indexing an empty array yields `undefined`
(modelled as `none`); there is no emptiness guard. -/
def defaultNetworkInterfaceParameters (name : String) (virtualNetwork : VirtualNetwork)
    (publicIp : PublicIPAddress) : Run NetworkInterface :=
  match virtualNetwork.subnets with
  | none => ⟨[], .err "TypeError: Cannot read property '0' of undefined"⟩
  | some subnets =>
    ⟨[], .ok { location := some "eastus2"
               ipConfigurations := some [{ name := some name
                                           privateIPAllocationMethod := some "Dynamic"
                                           subnet := subnets.head?
                                           publicIPAddress := some publicIp }] }⟩

def createNetworkInterface (subId rg name : String) (virtualNetwork : VirtualNetwork)
    (publicIp : PublicIPAddress) (parameters : Option NetworkInterface)
    (r : Res NetworkInterface) : Run NetworkInterface := do
  let _params ← match parameters with
    | some p => (pure p : Run NetworkInterface)
    | none => defaultNetworkInterfaceParameters name virtualNetwork publicIp
  logLine ("Creating \"" ++ name ++ "\" network interface in " ++ rg
    ++ " resource group in " ++ subId ++ " subscription")
  let networkInterface ← remote (.nicCreateOrUpdate rg name) r
  logLine ("Virtual network \"" ++ js networkInterface.name ++ " was created successfully")
  pure networkInterface

def createVirtualMachine (subId rg virtualMachineName : String)
    (parameters : Option VirtualMachine) (r : Res VirtualMachine) : Run VirtualMachine := do
  let _params := parameters.getD { location := some "eastus2" }
  logLine ("Creating \"" ++ virtualMachineName ++ "\" virtual machine in " ++ rg
    ++ " resource group in " ++ subId ++ " subscription")
  let virtualMachine ← remote (.vmCreateOrUpdate rg virtualMachineName) r
  logLine ("Created " ++ js virtualMachine.name ++ " (" ++ js virtualMachine.vmId
    ++ ") virtual machine.")
  pure virtualMachine

/-- `deleteResource` of `V1`: logs intent, invokes `deleteMethod` WITHOUT
awaiting it, immediately logs the success line, and returns the still-pending
promise.  These are the events the function itself emits; the returned promise
settles only when the caller awaits it. -/
def deleteResource (rg resourceName : String) (c : RCall) : List Event :=
  [.consoleLog ("Deleting \"" ++ resourceName ++ "\" resource in " ++ rg ++ " resource group"),
   .callStart c,
   .consoleLog ("Resource \"" ++ resourceName ++ "\" deleted successfully.")]

/-- The driver's `await deleteResource(…)`: the events `deleteResource` emits,
then the settling of the promise it returned. -/
def awaitDeleteResource (rg resourceName : String) (c : RCall) (r : Res Unit) : Run Unit :=
  Run.bind ⟨deleteResource rg resourceName c, .ok ()⟩ fun _ => awaitPending c r

/-- The body of the `V1` driver IIFE (the part inside `try`). -/
def body (env : Option String) (now : JsDate) (api : Api) : Run Unit := do
  let subscriptionId ← getSubscriptionId env
  let resourceGroupName := "samples"
  let nameSuffix := getNameSuffix now
  let virtualMachineName := "vm" ++ nameSuffix
  let virtualNetworkName := "network" ++ nameSuffix
  let publicIpName := "ip" ++ nameSuffix
  let networkInterfaceName := "nic" ++ nameSuffix
  let subId ← getAzureClients subscriptionId api.login
  let _ ← listVirtualMachines subId 0 api.listAll1
  let virtualNetwork ← createVirtualNetwork subId resourceGroupName virtualNetworkName
    none api.vnetCreate
  let publicIp ← createPublicIpAddress subId resourceGroupName publicIpName none api.ipCreate
  let networkInterface ← createNetworkInterface subId resourceGroupName networkInterfaceName
    virtualNetwork publicIp none api.nicCreate
  let _ ← createVirtualMachine subId resourceGroupName virtualMachineName
    (some { location := some "eastus2"
            hardwareProfile := some { vmSize := some "Basic_A0" }
            osProfile := some { computerName := some virtualMachineName
                                adminUsername := some "MyUsername"
                                adminPassword := some "MyPa$$w0rd" }
            networkProfile := some
              { networkInterfaces := some [{ primary := some true, id := networkInterface.id }] }
            storageProfile := some
              { imageReference := some { sku := some "18.04-LTS"
                                         publisher := some "Canonical"
                                         version := some "latest"
                                         offer := some "UbuntuServer" }
                osDisk := some { caching := some "ReadWrite"
                                 managedDisk := some { storageAccountType := some "Standard_LRS" }
                                 name := some ("disk" ++ nameSuffix)
                                 createOption := some "FromImage" } } })
    api.vmCreate
  let _ ← listVirtualMachines subId 1 api.listAll2
  awaitDeleteResource resourceGroupName virtualMachineName
    (.vmDelete resourceGroupName virtualMachineName) api.vmDelete
  awaitDeleteResource resourceGroupName networkInterfaceName
    (.nicDelete resourceGroupName networkInterfaceName) api.nicDelete
  awaitDeleteResource resourceGroupName publicIpName
    (.ipDelete resourceGroupName publicIpName) api.ipDelete
  awaitDeleteResource resourceGroupName virtualNetworkName
    (.vnetDelete resourceGroupName virtualNetworkName) api.vnetDelete

/-- The `V1` driver IIFE: the body inside `try`, with the `catch` logging the
error's message. -/
def driver (env : Option String) (now : JsDate) (api : Api) : Run Unit :=
  tryCatchLogMessage (body env now api)

end V1

/-! ## Variant `V2` (second document of `src/index.ts`; its operation
functions are textually identical to `V1`'s, so the `V1` definitions are
reused; the storage-account operations are never reached by its driver —
the calls are commented out in the source). -/

namespace V2

/-- `deleteVirtualMachine` of `V2`: awaits `deleteMethod` to completion and
only then logs the success line. -/
def deleteVirtualMachine (subId rg virtualMachineName : String) (r : Res Unit) : Run Unit := do
  logLine ("Deleting \"" ++ virtualMachineName ++ "\" virtual machine in " ++ rg
    ++ " resource group in " ++ subId ++ " subscription")
  let _ ← remote (.vmDelete rg virtualMachineName) r
  logLine ("Virtual machine \"" ++ virtualMachineName ++ "\" deleted successfully.")

/-- The body of the `V2` driver IIFE.  The VM keeps the fixed name
`MySampleVM`; the name suffix comes from the year-including helper; only the
VM is deleted (network teardown is commented out in the source). -/
def body (env : Option String) (now : JsDate) (api : Api) : Run Unit := do
  let subscriptionId ← getSubscriptionId env
  let resourceGroupName := "samples"
  let nameSuffix := getNameSuffixY now
  let virtualMachineName := "MySampleVM"
  let virtualNetworkName := "network" ++ nameSuffix
  let publicIpName := "ip" ++ nameSuffix
  let networkInterfaceName := "nic" ++ nameSuffix
  let subId ← V1.getAzureClients subscriptionId api.login
  let _ ← V1.listVirtualMachines subId 0 api.listAll1
  let virtualNetwork ← V1.createVirtualNetwork subId resourceGroupName virtualNetworkName
    none api.vnetCreate
  let publicIp ← V1.createPublicIpAddress subId resourceGroupName publicIpName
    none api.ipCreate
  let networkInterface ← V1.createNetworkInterface subId resourceGroupName
    networkInterfaceName virtualNetwork publicIp none api.nicCreate
  let _ ← V1.createVirtualMachine subId resourceGroupName virtualMachineName
    (some { location := some "eastus2"
            hardwareProfile := some { vmSize := some "Basic_A0" }
            osProfile := some { computerName := some virtualMachineName
                                adminUsername := some "MyUsername"
                                adminPassword := some "MyPa$$w0rd" }
            networkProfile := some
              { networkInterfaces := some [{ primary := some true, id := networkInterface.id }] }
            storageProfile := some
              { imageReference := some { sku := some "2016-Datacenter"
                                         publisher := some "MicrosoftWindowsServer"
                                         version := some "latest"
                                         offer := some "WindowsServer" }
                osDisk := some { caching := some "ReadWrite"
                                 managedDisk := some { storageAccountType := some "Standard_LRS" }
                                 name := some "myVMosdisk"
                                 createOption := some "FromImage" } } })
    api.vmCreate
  let _ ← V1.listVirtualMachines subId 1 api.listAll2
  deleteVirtualMachine subId resourceGroupName virtualMachineName api.vmDelete

/-- The `V2` driver IIFE: `catch` logs the message and the serialized error. -/
def driver (env : Option String) (now : JsDate) (api : Api) : Run Unit :=
  tryCatchLogMessageAndJson (body env now api)

end V2

/-! ## Variant `P0` (`src/unnamed/part_000`) -/

namespace P0

/-- `getAzureClients` of `P0`: `new DefaultAzureCredential()` is a synchronous
constructor — no remote call happens here. -/
def getAzureClients (subscriptionId : String) : Run String :=
  pure subscriptionId

/-- `listVirtualMachines` of `P0`: awaits `listAll` (a paged iteration,
modelled as one remote call consumed to the end), logs one line per machine
while counting, then logs the count. -/
def listVirtualMachines (subId : String) (k : Nat) (r : Res (List VirtualMachine)) :
    Run (List VirtualMachine) := do
  logLine ("Listing virtual machine in " ++ subId ++ " subscription")
  let virtualMachines ← remote (.vmListAll k) r
  logLines (virtualMachines.enum.map fun p =>
    toString p.1 ++ "): " ++ js p.2.name ++ "\t\t" ++ js p.2.location ++ "\t"
      ++ js p.2.provisioningState)
  logLine ("Found " ++ toString virtualMachines.length ++ " virtual machines:")
  pure virtualMachines

def defaultVirtualNetworkParameters (location name : String) : VirtualNetwork :=
  { location := some location
    addressSpace := some { addressPrefixes := some ["10.0.0.0/16"] }
    subnets := some [{ name := some ("sub" ++ name), addressPrefix := some "10.0.0.0/24" }] }

/-- `createVirtualNetwork` of `P0`: awaits `beginCreateOrUpdateAndWait`, then
awaits `get`, then logs success with the fetched resource's name. -/
def createVirtualNetwork (subId location rg name : String)
    (parameters : Option VirtualNetwork) (rWait : Res Unit) (rGet : Res VirtualNetwork) :
    Run VirtualNetwork := do
  let _params := parameters.getD (defaultVirtualNetworkParameters location name)
  logLine ("Creating \"" ++ name ++ "\" virtual network in " ++ rg
    ++ " resource group in " ++ subId ++ " subscription")
  let _ ← remote (.vnetCreateOrUpdate rg name) rWait
  let virtualNetwork ← remote (.vnetGet rg name) rGet
  logLine ("Virtual network \"" ++ js virtualNetwork.name ++ "\" was created successfully")
  pure virtualNetwork

def defaultPublicIpParameters (location name : String) : PublicIPAddress :=
  { location := some location
    publicIPAllocationMethod := some "Dynamic"
    dnsSettings := some { domainNameLabel := some name } }

def createPublicIpAddress (subId location rg name : String)
    (parameters : Option PublicIPAddress) (rWait : Res Unit) (rGet : Res PublicIPAddress) :
    Run PublicIPAddress := do
  let _params := parameters.getD (defaultPublicIpParameters location name)
  logLine ("Creating \"" ++ name ++ "\" public IP address in " ++ rg
    ++ " resource group in " ++ subId ++ " subscription")
  let _ ← remote (.ipCreateOrUpdate rg name) rWait
  let publicIPAddress ← remote (.ipGet rg name) rGet
  logLine ("Virtual network \"" ++ js publicIPAddress.name ++ "\" was created successfully")
  pure publicIPAddress

/-- The default `parameters` of `P0.createNetworkInterface`; same
`virtualNetwork.subnets![0]` dereference as in `V1`. -/
def defaultNetworkInterfaceParameters (location name : String)
    (virtualNetwork : VirtualNetwork) (publicIp : PublicIPAddress) : Run NetworkInterface :=
  match virtualNetwork.subnets with
  | none => ⟨[], .err "TypeError: Cannot read properties of undefined (reading 0)"⟩
  | some subnets =>
    ⟨[], .ok { location := some location
               ipConfigurations := some [{ name := some name
                                           privateIPAllocationMethod := some "Dynamic"
                                           subnet := subnets.head?
                                           publicIPAddress := some publicIp }] }⟩

def createNetworkInterface (subId location rg name : String)
    (virtualNetwork : VirtualNetwork) (publicIp : PublicIPAddress)
    (parameters : Option NetworkInterface) (rWait : Res Unit) (rGet : Res NetworkInterface) :
    Run NetworkInterface := do
  let _params ← match parameters with
    | some p => (pure p : Run NetworkInterface)
    | none => defaultNetworkInterfaceParameters location name virtualNetwork publicIp
  logLine ("Creating \"" ++ name ++ "\" network interface in " ++ rg
    ++ " resource group in " ++ subId ++ " subscription")
  let _ ← remote (.nicCreateOrUpdate rg name) rWait
  let networkInterface ← remote (.nicGet rg name) rGet
  logLine ("Virtual network \"" ++ js networkInterface.name ++ "\" was created successfully")
  pure networkInterface

def createVirtualMachine (subId location rg virtualMachineName : String)
    (parameters : Option VirtualMachine) (rWait : Res Unit) (rGet : Res VirtualMachine) :
    Run VirtualMachine := do
  let _params := parameters.getD { location := some location }
  logLine ("Creating \"" ++ virtualMachineName ++ "\" virtual machine in " ++ rg
    ++ " resource group in " ++ subId ++ " subscription")
  let _ ← remote (.vmCreateOrUpdate rg virtualMachineName) rWait
  let virtualMachine ← remote (.vmGet rg virtualMachineName) rGet
  logLine ("Created " ++ js virtualMachine.name ++ " (" ++ js virtualMachine.vmId
    ++ ") virtual machine.")
  pure virtualMachine

/-- `deleteResource` of `P0`: awaits `beginDeleteAndWait` to completion and
only then logs the success line. -/
def deleteResource (rg resourceName : String) (c : RCall) (r : Res Unit) : Run Unit := do
  logLine ("Deleting \"" ++ resourceName ++ "\" resource in " ++ rg ++ " resource group")
  let _ ← remote c r
  logLine ("Resource \"" ++ resourceName ++ "\" deleted successfully.")

/-- The body of the `P0` driver IIFE. -/
def body (env : Option String) (now : JsDate) (api : Api) : Run Unit := do
  let subscriptionId ← getSubscriptionId env
  let resourceGroupName := "samples"
  let nameSuffix := getNameSuffix now
  let location := "eastus"
  let virtualMachineName := "vm" ++ nameSuffix
  let virtualNetworkName := "network" ++ nameSuffix
  let publicIpName := "ip" ++ nameSuffix
  let networkInterfaceName := "nic" ++ nameSuffix
  let subId ← getAzureClients subscriptionId
  let _ ← listVirtualMachines subId 0 api.listAll1
  let virtualNetwork ← createVirtualNetwork subId location resourceGroupName
    virtualNetworkName none api.vnetCreateWait api.vnetGet
  let publicIp ← createPublicIpAddress subId location resourceGroupName publicIpName
    none api.ipCreateWait api.ipGet
  let networkInterface ← createNetworkInterface subId location resourceGroupName
    networkInterfaceName virtualNetwork publicIp none api.nicCreateWait api.nicGet
  let _ ← createVirtualMachine subId location resourceGroupName virtualMachineName
    (some { location := some location
            hardwareProfile := some { vmSize := some "Standard_D2s_v3" }
            osProfile := some { computerName := some virtualMachineName
                                adminUsername := some "MyUsername"
                                adminPassword := some "MyPa$$w0rd" }
            networkProfile := some
              { networkInterfaces := some [{ primary := some true, id := networkInterface.id }] }
            storageProfile := some
              { imageReference := some { sku := some "20_04-lts-gen2"
                                         publisher := some "Canonical"
                                         version := some "latest"
                                         offer := some "0001-com-ubuntu-server-focal" }
                osDisk := some { caching := some "ReadWrite"
                                 managedDisk := some { storageAccountType := some "Standard_LRS" }
                                 name := some ("disk" ++ nameSuffix)
                                 createOption := some "FromImage" } } })
    api.vmCreateWait api.vmGet
  let _ ← listVirtualMachines subId 1 api.listAll2
  deleteResource resourceGroupName virtualMachineName
    (.vmDelete resourceGroupName virtualMachineName) api.vmDelete
  deleteResource resourceGroupName networkInterfaceName
    (.nicDelete resourceGroupName networkInterfaceName) api.nicDelete
  deleteResource resourceGroupName publicIpName
    (.ipDelete resourceGroupName publicIpName) api.ipDelete
  deleteResource resourceGroupName virtualNetworkName
    (.vnetDelete resourceGroupName virtualNetworkName) api.vnetDelete

/-- The `P0` driver IIFE: `catch` logs `error.message`. -/
def driver (env : Option String) (now : JsDate) (api : Api) : Run Unit :=
  tryCatchLogMessage (body env now api)

end P0

/-! ## Trace observations -/

/-- The remote-call events of a trace (issue, fulfill, reject), in order. -/
def callEvents : List Event → List Event
  | [] => []
  | .callStart c :: rest => .callStart c :: callEvents rest
  | .callEnd c :: rest => .callEnd c :: callEvents rest
  | .callFail c :: rest => .callFail c :: callEvents rest
  | .consoleLog _ :: rest => callEvents rest
  | .consoleError _ :: rest => callEvents rest
  | .exitProc _ :: rest => callEvents rest

/-- The remote calls a trace issues, in order. -/
def callStarts : List Event → List RCall
  | [] => []
  | .callStart c :: rest => c :: callStarts rest
  | .callEnd _ :: rest => callStarts rest
  | .callFail _ :: rest => callStarts rest
  | .consoleLog _ :: rest => callStarts rest
  | .consoleError _ :: rest => callStarts rest
  | .exitProc _ :: rest => callStarts rest

/-- The deletion calls a trace issues, in order. -/
def deleteStarts : List Event → List RCall
  | [] => []
  | .callStart (.vmDelete rg n) :: rest => .vmDelete rg n :: deleteStarts rest
  | .callStart (.nicDelete rg n) :: rest => .nicDelete rg n :: deleteStarts rest
  | .callStart (.ipDelete rg n) :: rest => .ipDelete rg n :: deleteStarts rest
  | .callStart (.vnetDelete rg n) :: rest => .vnetDelete rg n :: deleteStarts rest
  | .callStart (.login) :: rest => deleteStarts rest
  | .callStart (.vmListAll _) :: rest => deleteStarts rest
  | .callStart (.vnetCreateOrUpdate _ _) :: rest => deleteStarts rest
  | .callStart (.vnetGet _ _) :: rest => deleteStarts rest
  | .callStart (.ipCreateOrUpdate _ _) :: rest => deleteStarts rest
  | .callStart (.ipGet _ _) :: rest => deleteStarts rest
  | .callStart (.nicCreateOrUpdate _ _) :: rest => deleteStarts rest
  | .callStart (.nicGet _ _) :: rest => deleteStarts rest
  | .callStart (.vmCreateOrUpdate _ _) :: rest => deleteStarts rest
  | .callStart (.vmGet _ _) :: rest => deleteStarts rest
  | .callEnd _ :: rest => deleteStarts rest
  | .callFail _ :: rest => deleteStarts rest
  | .consoleLog _ :: rest => deleteStarts rest
  | .consoleError _ :: rest => deleteStarts rest
  | .exitProc _ :: rest => deleteStarts rest

/-- `SeqCalls evts` says the call events of a run alternate strictly:
each issued call is settled (fulfilled, or rejected as the final event)
before the next call is issued — no two remote calls are ever in flight
at once. -/
def SeqCalls : List Event → Prop
  | [] => True
  | [.callStart c, .callFail c'] => c = c'
  | .callStart c :: .callEnd c' :: rest => c = c' ∧ SeqCalls rest
  | _ => False

/-- `Precedes e s t`: scanning the trace `t` left to right, the event `e`
occurs before any occurrence of `s` (vacuously when `s` never occurs). -/
def Precedes (e s : Event) : List Event → Prop
  | [] => True
  | x :: rest => if x = s then False else if x = e then True else Precedes e s rest

instance Precedes.inst (e s : Event) : (t : List Event) → Decidable (Precedes e s t)
  | [] => .isTrue trivial
  | x :: rest =>
    if hxs : x = s then .isFalse (by simp [Precedes, hxs])
    else if hxe : x = e then .isTrue (by subst hxe; simp [Precedes, hxs])
    else
      match Precedes.inst e s rest with
      | .isTrue h => .isTrue (by simp [Precedes, hxs, hxe, h])
      | .isFalse h => .isFalse (by simp [Precedes, hxs, hxe, h])

/-- The full teardown sequence, in the reverse of the creation dependency
order, for resource-group `rg` and name-suffix `sfx`. -/
def teardownCalls (rg sfx : String) : List RCall :=
  [.vmDelete rg ("vm" ++ sfx), .nicDelete rg ("nic" ++ sfx),
   .ipDelete rg ("ip" ++ sfx), .vnetDelete rg ("network" ++ sfx)]

/-! ## Concrete fixtures (used by counterexamples and witnesses) -/

/-- A concrete wall-clock reading: `getMonth() = 3`, `getDate() = 7`,
`getHours() = 9`, `getMinutes() = 5`, `getSeconds() = 1`, year 2019.
Its name suffix is `"0307090501"`. -/
def sampleDate : JsDate :=
  { year := 2019, month := 3, day := 7, hour := 9, minute := 5, second := 1 }

def subnetFixture : Subnet :=
  { name := some "subnetwork0307090501", addressPrefix := some "10.0.0.0/24" }

/-- A created virtual network as the remote service would return it: one
subnet, as requested by the default create parameters. -/
def vnetFixture : VirtualNetwork :=
  { name := some "network0307090501"
    location := some "eastus2"
    addressSpace := some { addressPrefixes := some ["10.0.0.0/16"] }
    subnets := some [subnetFixture] }

/-- An oracle under which every remote call succeeds, and the created virtual
network comes back with its one subnet. -/
def apiAllOk : Api :=
  { vnetCreate := .ok vnetFixture, vnetGet := .ok vnetFixture }

/-- An oracle whose virtual-network creation step rejects. -/
def apiVnetFail : Api :=
  { vnetCreate := .error "boom", vnetCreateWait := .error "boom" }

/-- An oracle whose network-interface creation step rejects (and whose
virtual-network steps succeed with a subnet-carrying network). -/
def apiNicFail : Api :=
  { vnetCreate := .ok vnetFixture, vnetGet := .ok vnetFixture
    nicCreate := .error "nic-boom", nicCreateWait := .error "nic-boom" }

/-! ## Reduction and trace lemmas -/

@[simp] theorem Run.bind_mk_ok {α β : Type} (ev : List Event) (a : α) (f : α → Run β) :
    Run.bind ⟨ev, .ok a⟩ f = ⟨ev ++ (f a).events, (f a).out⟩ := rfl

@[simp] theorem Run.bind_mk_err {α β : Type} (ev : List Event) (m : String) (f : α → Run β) :
    Run.bind ⟨ev, .err m⟩ f = ⟨ev, .err m⟩ := rfl

@[simp] theorem Run.bind_mk_exited {α β : Type} (ev : List Event) (c : Nat) (f : α → Run β) :
    Run.bind ⟨ev, .exited c⟩ f = ⟨ev, .exited c⟩ := rfl

@[simp] theorem Run.bind_eq {α β : Type} (x : Run α) (f : α → Run β) :
    x >>= f = Run.bind x f := rfl

@[simp] theorem Run.pure_eq {α : Type} (a : α) :
    (pure a : Run α) = ⟨[], .ok a⟩ := rfl

/-- `console.log`. -/
@[simp] theorem remote_ok {α : Type} (c : RCall) (a : α) :
    remote c (.ok a) = ⟨[.callStart c, .callEnd c], .ok a⟩ := rfl

@[simp] theorem remote_error {α : Type} (c : RCall) (m : String) :
    (remote c (.error m) : Run α) = ⟨[.callStart c, .callFail c], .err m⟩ := rfl

@[simp] theorem awaitPending_ok (c : RCall) :
    awaitPending c (.ok ()) = ⟨[.callEnd c], .ok ()⟩ := rfl

@[simp] theorem awaitPending_error (c : RCall) (m : String) :
    awaitPending c (.error m) = ⟨[.callFail c], .err m⟩ := rfl

@[simp] theorem callEvents_append (xs ys : List Event) :
    callEvents (xs ++ ys) = callEvents xs ++ callEvents ys := by
  induction xs with
  | nil => rfl
  | cons e rest ih => cases e <;> simp [callEvents, ih]

@[simp] theorem callStarts_append (xs ys : List Event) :
    callStarts (xs ++ ys) = callStarts xs ++ callStarts ys := by
  induction xs with
  | nil => rfl
  | cons e rest ih => cases e <;> simp [callStarts, ih]

@[simp] theorem deleteStarts_append (xs ys : List Event) :
    deleteStarts (xs ++ ys) = deleteStarts xs ++ deleteStarts ys := by
  induction xs with
  | nil => rfl
  | cons e rest ih =>
    cases e with
    | callStart c => cases c <;> simp [deleteStarts, ih]
    | _ => simp [deleteStarts, ih]

@[simp] theorem callEvents_map_consoleLog (l : List String) :
    callEvents (l.map Event.consoleLog) = [] := by
  induction l with
  | nil => rfl
  | cons m ms ih => simp [callEvents, ih]

@[simp] theorem callStarts_map_consoleLog (l : List String) :
    callStarts (l.map Event.consoleLog) = [] := by
  induction l with
  | nil => rfl
  | cons m ms ih => simp [callStarts, ih]

@[simp] theorem deleteStarts_map_consoleLog (l : List String) :
    deleteStarts (l.map Event.consoleLog) = [] := by
  induction l with
  | nil => rfl
  | cons m ms ih => simp [deleteStarts, ih]

@[simp] theorem callEvents_map_log {α : Type} (l : List α) (f : α → String) :
    callEvents (l.map fun v => Event.consoleLog (f v)) = [] := by
  induction l with
  | nil => rfl
  | cons m ms ih => simp [callEvents, ih]

@[simp] theorem callStarts_map_log {α : Type} (l : List α) (f : α → String) :
    callStarts (l.map fun v => Event.consoleLog (f v)) = [] := by
  induction l with
  | nil => rfl
  | cons m ms ih => simp [callStarts, ih]

@[simp] theorem deleteStarts_map_log {α : Type} (l : List α) (f : α → String) :
    deleteStarts (l.map fun v => Event.consoleLog (f v)) = [] := by
  induction l with
  | nil => rfl
  | cons m ms ih => simp [deleteStarts, ih]

@[simp] theorem callEvents_map_comp {α : Type} (l : List α) (f : α → String) :
    callEvents (l.map (Event.consoleLog ∘ f)) = [] := by
  induction l with
  | nil => rfl
  | cons m ms ih => simp [callEvents, Function.comp, ih]

@[simp] theorem callStarts_map_comp {α : Type} (l : List α) (f : α → String) :
    callStarts (l.map (Event.consoleLog ∘ f)) = [] := by
  induction l with
  | nil => rfl
  | cons m ms ih => simp [callStarts, Function.comp, ih]

@[simp] theorem deleteStarts_map_comp {α : Type} (l : List α) (f : α → String) :
    deleteStarts (l.map (Event.consoleLog ∘ f)) = [] := by
  induction l with
  | nil => rfl
  | cons m ms ih => simp [deleteStarts, Function.comp, ih]

@[simp] theorem Precedes_nil (e s : Event) : Precedes e s [] := trivial

@[simp] theorem Precedes_cons (e s x : Event) (rest : List Event) :
    Precedes e s (x :: rest)
      = if x = s then False else if x = e then True else Precedes e s rest := rfl

@[simp] theorem Precedes_call_logs_append (c₁ c₂ : RCall) (msgs : List String)
    (rest : List Event) :
    Precedes (.callEnd c₁) (.callStart c₂) (msgs.map Event.consoleLog ++ rest)
      ↔ Precedes (.callEnd c₁) (.callStart c₂) rest := by
  induction msgs with
  | nil => simp
  | cons m ms ih => simpa [Precedes_cons] using ih

@[simp] theorem Precedes_call_logsf_append {α : Type} (c₁ c₂ : RCall) (l : List α)
    (f : α → String) (rest : List Event) :
    Precedes (.callEnd c₁) (.callStart c₂) ((l.map fun v => Event.consoleLog (f v)) ++ rest)
      ↔ Precedes (.callEnd c₁) (.callStart c₂) rest := by
  induction l with
  | nil => simp
  | cons m ms ih => simpa [Precedes_cons] using ih

@[simp] theorem Precedes_call_logsc_append {α : Type} (c₁ c₂ : RCall) (l : List α)
    (f : α → String) (rest : List Event) :
    Precedes (.callEnd c₁) (.callStart c₂) (l.map (Event.consoleLog ∘ f) ++ rest)
      ↔ Precedes (.callEnd c₁) (.callStart c₂) rest := by
  induction l with
  | nil => simp
  | cons m ms ih => simpa [Precedes_cons, Function.comp] using ih

/-- Case analysis of every possible `V1` run: the deletions issued form a
front segment of the teardown sequence, remote calls never overlap, the
public-IP creation is issued only after the virtual-network creation
fulfilled, and no call site is ever issued twice. -/
theorem V1_driver_cases (env : Option String) (now : JsDate) (api : Api) :
    (∃ k, deleteStarts (V1.driver env now api).events
        = (teardownCalls "samples" (getNameSuffix now)).take k)
    ∧ SeqCalls (callEvents (V1.driver env now api).events)
    ∧ Precedes (.callEnd (.vnetCreateOrUpdate "samples" ("network" ++ getNameSuffix now)))
        (.callStart (.ipCreateOrUpdate "samples" ("ip" ++ getNameSuffix now)))
        (V1.driver env now api).events
    ∧ (callStarts (V1.driver env now api).events).Nodup := by
  obtain ⟨login, listAll1, listAll2, vnetCreate, ipCreate, nicCreate, vmCreate,
    vnetCW, ipCW, nicCW, vmCW, vnetG, ipG, nicG, vmG, vmD, nicD, ipD, vnetD⟩ := api
  rcases env with _ | s
  · refine ⟨⟨0, ?_⟩, ?_, ?_, ?_⟩ <;>
      simp [V1.driver, V1.body, getSubscriptionId, tryCatchLogMessage,
        deleteStarts, callStarts, callEvents, SeqCalls]
  rcases eq_or_ne s "" with rfl | hs
  · refine ⟨⟨0, ?_⟩, ?_, ?_, ?_⟩ <;>
      simp [V1.driver, V1.body, getSubscriptionId, tryCatchLogMessage,
        deleteStarts, callStarts, callEvents, SeqCalls]
  rcases login with m | u
  · refine ⟨⟨0, ?_⟩, ?_, ?_, ?_⟩ <;>
      simp [V1.driver, V1.body, V1.getAzureClients, getSubscriptionId, hs,
        tryCatchLogMessage, logLine, deleteStarts, callStarts, callEvents, SeqCalls]
  rcases listAll1 with m | vms1
  · refine ⟨⟨0, ?_⟩, ?_, ?_, ?_⟩ <;>
      simp [V1.driver, V1.body, V1.getAzureClients, V1.listVirtualMachines,
        getSubscriptionId, hs, tryCatchLogMessage, logLine, logLines,
        deleteStarts, callStarts, callEvents, SeqCalls]
  rcases vnetCreate with m | vn
  · refine ⟨⟨0, ?_⟩, ?_, ?_, ?_⟩ <;>
      simp [V1.driver, V1.body, V1.getAzureClients, V1.listVirtualMachines,
        V1.createVirtualNetwork, getSubscriptionId, hs, tryCatchLogMessage,
        logLine, logLines, deleteStarts, callStarts, callEvents, SeqCalls]
  rcases ipCreate with m | pip
  · refine ⟨⟨0, ?_⟩, ?_, ?_, ?_⟩ <;>
      simp [V1.driver, V1.body, V1.getAzureClients, V1.listVirtualMachines,
        V1.createVirtualNetwork, V1.createPublicIpAddress, getSubscriptionId, hs,
        tryCatchLogMessage, logLine, logLines, deleteStarts, callStarts,
        callEvents, SeqCalls]
  obtain ⟨vnName, vnLoc, vnAddr, vnSubs⟩ := vn
  rcases vnSubs with _ | subs
  · refine ⟨⟨0, ?_⟩, ?_, ?_, ?_⟩ <;>
      simp [V1.driver, V1.body, V1.getAzureClients, V1.listVirtualMachines,
        V1.createVirtualNetwork, V1.createPublicIpAddress, V1.createNetworkInterface,
        V1.defaultNetworkInterfaceParameters, getSubscriptionId, hs,
        tryCatchLogMessage, logLine, logLines, deleteStarts, callStarts,
        callEvents, SeqCalls]
  rcases nicCreate with m | nic
  · refine ⟨⟨0, ?_⟩, ?_, ?_, ?_⟩ <;>
      simp [V1.driver, V1.body, V1.getAzureClients, V1.listVirtualMachines,
        V1.createVirtualNetwork, V1.createPublicIpAddress, V1.createNetworkInterface,
        V1.defaultNetworkInterfaceParameters, getSubscriptionId, hs,
        tryCatchLogMessage, logLine, logLines, deleteStarts, callStarts,
        callEvents, SeqCalls]
  rcases vmCreate with m | vm
  · refine ⟨⟨0, ?_⟩, ?_, ?_, ?_⟩ <;>
      simp [V1.driver, V1.body, V1.getAzureClients, V1.listVirtualMachines,
        V1.createVirtualNetwork, V1.createPublicIpAddress, V1.createNetworkInterface,
        V1.defaultNetworkInterfaceParameters, V1.createVirtualMachine,
        getSubscriptionId, hs, tryCatchLogMessage, logLine, logLines,
        deleteStarts, callStarts, callEvents, SeqCalls]
  rcases listAll2 with m | vms2
  · refine ⟨⟨0, ?_⟩, ?_, ?_, ?_⟩ <;>
      simp [V1.driver, V1.body, V1.getAzureClients, V1.listVirtualMachines,
        V1.createVirtualNetwork, V1.createPublicIpAddress, V1.createNetworkInterface,
        V1.defaultNetworkInterfaceParameters, V1.createVirtualMachine,
        getSubscriptionId, hs, tryCatchLogMessage, logLine, logLines,
        deleteStarts, callStarts, callEvents, SeqCalls]
  rcases vmD with m | _
  · refine ⟨⟨1, ?_⟩, ?_, ?_, ?_⟩ <;>
      simp [V1.driver, V1.body, V1.getAzureClients, V1.listVirtualMachines,
        V1.createVirtualNetwork, V1.createPublicIpAddress, V1.createNetworkInterface,
        V1.defaultNetworkInterfaceParameters, V1.createVirtualMachine,
        V1.awaitDeleteResource, V1.deleteResource, awaitPending, teardownCalls,
        getSubscriptionId, hs, tryCatchLogMessage, logLine, logLines,
        deleteStarts, callStarts, callEvents, SeqCalls]
  rcases nicD with m | _
  · refine ⟨⟨2, ?_⟩, ?_, ?_, ?_⟩ <;>
      simp [V1.driver, V1.body, V1.getAzureClients, V1.listVirtualMachines,
        V1.createVirtualNetwork, V1.createPublicIpAddress, V1.createNetworkInterface,
        V1.defaultNetworkInterfaceParameters, V1.createVirtualMachine,
        V1.awaitDeleteResource, V1.deleteResource, awaitPending, teardownCalls,
        getSubscriptionId, hs, tryCatchLogMessage, logLine, logLines,
        deleteStarts, callStarts, callEvents, SeqCalls]
  rcases ipD with m | _
  · refine ⟨⟨3, ?_⟩, ?_, ?_, ?_⟩ <;>
      simp [V1.driver, V1.body, V1.getAzureClients, V1.listVirtualMachines,
        V1.createVirtualNetwork, V1.createPublicIpAddress, V1.createNetworkInterface,
        V1.defaultNetworkInterfaceParameters, V1.createVirtualMachine,
        V1.awaitDeleteResource, V1.deleteResource, awaitPending, teardownCalls,
        getSubscriptionId, hs, tryCatchLogMessage, logLine, logLines,
        deleteStarts, callStarts, callEvents, SeqCalls]
  rcases vnetD with m | _
  · refine ⟨⟨4, ?_⟩, ?_, ?_, ?_⟩ <;>
      simp [V1.driver, V1.body, V1.getAzureClients, V1.listVirtualMachines,
        V1.createVirtualNetwork, V1.createPublicIpAddress, V1.createNetworkInterface,
        V1.defaultNetworkInterfaceParameters, V1.createVirtualMachine,
        V1.awaitDeleteResource, V1.deleteResource, awaitPending, teardownCalls,
        getSubscriptionId, hs, tryCatchLogMessage, logLine, logLines,
        deleteStarts, callStarts, callEvents, SeqCalls]
  refine ⟨⟨4, ?_⟩, ?_, ?_, ?_⟩ <;>
    simp [V1.driver, V1.body, V1.getAzureClients, V1.listVirtualMachines,
      V1.createVirtualNetwork, V1.createPublicIpAddress, V1.createNetworkInterface,
      V1.defaultNetworkInterfaceParameters, V1.createVirtualMachine,
      V1.awaitDeleteResource, V1.deleteResource, awaitPending, teardownCalls,
      getSubscriptionId, hs, tryCatchLogMessage, logLine, logLines,
      deleteStarts, callStarts, callEvents, SeqCalls]

/-- Case analysis of every possible `P0` run: the deletions issued form a
front segment of the teardown sequence, remote calls never overlap, the
public-IP creation is issued only after the virtual-network creation
fulfilled, and no call site is ever issued twice. -/
theorem P0_driver_cases (env : Option String) (now : JsDate) (api : Api) :
    (∃ k, deleteStarts (P0.driver env now api).events
        = (teardownCalls "samples" (getNameSuffix now)).take k)
    ∧ SeqCalls (callEvents (P0.driver env now api).events)
    ∧ Precedes (.callEnd (.vnetCreateOrUpdate "samples" ("network" ++ getNameSuffix now)))
        (.callStart (.ipCreateOrUpdate "samples" ("ip" ++ getNameSuffix now)))
        (P0.driver env now api).events
    ∧ (callStarts (P0.driver env now api).events).Nodup := by
  obtain ⟨login, listAll1, listAll2, vnetCreate, ipCreate, nicCreate, vmCreate,
    vnetCW, ipCW, nicCW, vmCW, vnetG, ipG, nicG, vmG, vmD, nicD, ipD, vnetD⟩ := api
  rcases env with _ | s
  · refine ⟨⟨0, ?_⟩, ?_, ?_, ?_⟩ <;>
      simp [P0.driver, P0.body, P0.getAzureClients, P0.listVirtualMachines,
        P0.createVirtualNetwork, P0.createPublicIpAddress, P0.createNetworkInterface,
        P0.defaultNetworkInterfaceParameters, P0.createVirtualMachine, P0.deleteResource,
        getSubscriptionId, tryCatchLogMessage, logLine, logLines, teardownCalls,
        deleteStarts, callStarts, callEvents, SeqCalls]
  rcases eq_or_ne s "" with rfl | hs
  · refine ⟨⟨0, ?_⟩, ?_, ?_, ?_⟩ <;>
      simp [P0.driver, P0.body, P0.getAzureClients, P0.listVirtualMachines,
        P0.createVirtualNetwork, P0.createPublicIpAddress, P0.createNetworkInterface,
        P0.defaultNetworkInterfaceParameters, P0.createVirtualMachine, P0.deleteResource,
        getSubscriptionId, tryCatchLogMessage, logLine, logLines, teardownCalls,
        deleteStarts, callStarts, callEvents, SeqCalls]
  rcases listAll1 with m | vms1
  · refine ⟨⟨0, ?_⟩, ?_, ?_, ?_⟩ <;>
      simp [P0.driver, P0.body, P0.getAzureClients, P0.listVirtualMachines,
        P0.createVirtualNetwork, P0.createPublicIpAddress, P0.createNetworkInterface,
        P0.defaultNetworkInterfaceParameters, P0.createVirtualMachine, P0.deleteResource,
        getSubscriptionId, hs, tryCatchLogMessage, logLine, logLines, teardownCalls,
        deleteStarts, callStarts, callEvents, SeqCalls]
  rcases vnetCW with m | _
  · refine ⟨⟨0, ?_⟩, ?_, ?_, ?_⟩ <;>
      simp [P0.driver, P0.body, P0.getAzureClients, P0.listVirtualMachines,
        P0.createVirtualNetwork, P0.createPublicIpAddress, P0.createNetworkInterface,
        P0.defaultNetworkInterfaceParameters, P0.createVirtualMachine, P0.deleteResource,
        getSubscriptionId, hs, tryCatchLogMessage, logLine, logLines, teardownCalls,
        deleteStarts, callStarts, callEvents, SeqCalls]
  rcases vnetG with m | vn
  · refine ⟨⟨0, ?_⟩, ?_, ?_, ?_⟩ <;>
      simp [P0.driver, P0.body, P0.getAzureClients, P0.listVirtualMachines,
        P0.createVirtualNetwork, P0.createPublicIpAddress, P0.createNetworkInterface,
        P0.defaultNetworkInterfaceParameters, P0.createVirtualMachine, P0.deleteResource,
        getSubscriptionId, hs, tryCatchLogMessage, logLine, logLines, teardownCalls,
        deleteStarts, callStarts, callEvents, SeqCalls]
  rcases ipCW with m | _
  · refine ⟨⟨0, ?_⟩, ?_, ?_, ?_⟩ <;>
      simp [P0.driver, P0.body, P0.getAzureClients, P0.listVirtualMachines,
        P0.createVirtualNetwork, P0.createPublicIpAddress, P0.createNetworkInterface,
        P0.defaultNetworkInterfaceParameters, P0.createVirtualMachine, P0.deleteResource,
        getSubscriptionId, hs, tryCatchLogMessage, logLine, logLines, teardownCalls,
        deleteStarts, callStarts, callEvents, SeqCalls]
  rcases ipG with m | pip
  · refine ⟨⟨0, ?_⟩, ?_, ?_, ?_⟩ <;>
      simp [P0.driver, P0.body, P0.getAzureClients, P0.listVirtualMachines,
        P0.createVirtualNetwork, P0.createPublicIpAddress, P0.createNetworkInterface,
        P0.defaultNetworkInterfaceParameters, P0.createVirtualMachine, P0.deleteResource,
        getSubscriptionId, hs, tryCatchLogMessage, logLine, logLines, teardownCalls,
        deleteStarts, callStarts, callEvents, SeqCalls]
  obtain ⟨vnName, vnLoc, vnAddr, vnSubs⟩ := vn
  rcases vnSubs with _ | subs
  · refine ⟨⟨0, ?_⟩, ?_, ?_, ?_⟩ <;>
      simp [P0.driver, P0.body, P0.getAzureClients, P0.listVirtualMachines,
        P0.createVirtualNetwork, P0.createPublicIpAddress, P0.createNetworkInterface,
        P0.defaultNetworkInterfaceParameters, P0.createVirtualMachine, P0.deleteResource,
        getSubscriptionId, hs, tryCatchLogMessage, logLine, logLines, teardownCalls,
        deleteStarts, callStarts, callEvents, SeqCalls]
  rcases nicCW with m | _
  · refine ⟨⟨0, ?_⟩, ?_, ?_, ?_⟩ <;>
      simp [P0.driver, P0.body, P0.getAzureClients, P0.listVirtualMachines,
        P0.createVirtualNetwork, P0.createPublicIpAddress, P0.createNetworkInterface,
        P0.defaultNetworkInterfaceParameters, P0.createVirtualMachine, P0.deleteResource,
        getSubscriptionId, hs, tryCatchLogMessage, logLine, logLines, teardownCalls,
        deleteStarts, callStarts, callEvents, SeqCalls]
  rcases nicG with m | nic
  · refine ⟨⟨0, ?_⟩, ?_, ?_, ?_⟩ <;>
      simp [P0.driver, P0.body, P0.getAzureClients, P0.listVirtualMachines,
        P0.createVirtualNetwork, P0.createPublicIpAddress, P0.createNetworkInterface,
        P0.defaultNetworkInterfaceParameters, P0.createVirtualMachine, P0.deleteResource,
        getSubscriptionId, hs, tryCatchLogMessage, logLine, logLines, teardownCalls,
        deleteStarts, callStarts, callEvents, SeqCalls]
  rcases vmCW with m | _
  · refine ⟨⟨0, ?_⟩, ?_, ?_, ?_⟩ <;>
      simp [P0.driver, P0.body, P0.getAzureClients, P0.listVirtualMachines,
        P0.createVirtualNetwork, P0.createPublicIpAddress, P0.createNetworkInterface,
        P0.defaultNetworkInterfaceParameters, P0.createVirtualMachine, P0.deleteResource,
        getSubscriptionId, hs, tryCatchLogMessage, logLine, logLines, teardownCalls,
        deleteStarts, callStarts, callEvents, SeqCalls]
  rcases vmG with m | vm
  · refine ⟨⟨0, ?_⟩, ?_, ?_, ?_⟩ <;>
      simp [P0.driver, P0.body, P0.getAzureClients, P0.listVirtualMachines,
        P0.createVirtualNetwork, P0.createPublicIpAddress, P0.createNetworkInterface,
        P0.defaultNetworkInterfaceParameters, P0.createVirtualMachine, P0.deleteResource,
        getSubscriptionId, hs, tryCatchLogMessage, logLine, logLines, teardownCalls,
        deleteStarts, callStarts, callEvents, SeqCalls]
  rcases listAll2 with m | vms2
  · refine ⟨⟨0, ?_⟩, ?_, ?_, ?_⟩ <;>
      simp [P0.driver, P0.body, P0.getAzureClients, P0.listVirtualMachines,
        P0.createVirtualNetwork, P0.createPublicIpAddress, P0.createNetworkInterface,
        P0.defaultNetworkInterfaceParameters, P0.createVirtualMachine, P0.deleteResource,
        getSubscriptionId, hs, tryCatchLogMessage, logLine, logLines, teardownCalls,
        deleteStarts, callStarts, callEvents, SeqCalls]
  rcases vmD with m | _
  · refine ⟨⟨1, ?_⟩, ?_, ?_, ?_⟩ <;>
      simp [P0.driver, P0.body, P0.getAzureClients, P0.listVirtualMachines,
        P0.createVirtualNetwork, P0.createPublicIpAddress, P0.createNetworkInterface,
        P0.defaultNetworkInterfaceParameters, P0.createVirtualMachine, P0.deleteResource,
        getSubscriptionId, hs, tryCatchLogMessage, logLine, logLines, teardownCalls,
        deleteStarts, callStarts, callEvents, SeqCalls]
  rcases nicD with m | _
  · refine ⟨⟨2, ?_⟩, ?_, ?_, ?_⟩ <;>
      simp [P0.driver, P0.body, P0.getAzureClients, P0.listVirtualMachines,
        P0.createVirtualNetwork, P0.createPublicIpAddress, P0.createNetworkInterface,
        P0.defaultNetworkInterfaceParameters, P0.createVirtualMachine, P0.deleteResource,
        getSubscriptionId, hs, tryCatchLogMessage, logLine, logLines, teardownCalls,
        deleteStarts, callStarts, callEvents, SeqCalls]
  rcases ipD with m | _
  · refine ⟨⟨3, ?_⟩, ?_, ?_, ?_⟩ <;>
      simp [P0.driver, P0.body, P0.getAzureClients, P0.listVirtualMachines,
        P0.createVirtualNetwork, P0.createPublicIpAddress, P0.createNetworkInterface,
        P0.defaultNetworkInterfaceParameters, P0.createVirtualMachine, P0.deleteResource,
        getSubscriptionId, hs, tryCatchLogMessage, logLine, logLines, teardownCalls,
        deleteStarts, callStarts, callEvents, SeqCalls]
  rcases vnetD with m | _
  · refine ⟨⟨4, ?_⟩, ?_, ?_, ?_⟩ <;>
      simp [P0.driver, P0.body, P0.getAzureClients, P0.listVirtualMachines,
        P0.createVirtualNetwork, P0.createPublicIpAddress, P0.createNetworkInterface,
        P0.defaultNetworkInterfaceParameters, P0.createVirtualMachine, P0.deleteResource,
        getSubscriptionId, hs, tryCatchLogMessage, logLine, logLines, teardownCalls,
        deleteStarts, callStarts, callEvents, SeqCalls]
  refine ⟨⟨4, ?_⟩, ?_, ?_, ?_⟩ <;>
      simp [P0.driver, P0.body, P0.getAzureClients, P0.listVirtualMachines,
        P0.createVirtualNetwork, P0.createPublicIpAddress, P0.createNetworkInterface,
        P0.defaultNetworkInterfaceParameters, P0.createVirtualMachine, P0.deleteResource,
        getSubscriptionId, hs, tryCatchLogMessage, logLine, logLines, teardownCalls,
        deleteStarts, callStarts, callEvents, SeqCalls]

/-- Case analysis of every possible `V2` run: remote calls never overlap, the
public-IP creation is issued only after the virtual-network creation
fulfilled, and no call site is ever issued twice. -/
theorem V2_driver_cases (env : Option String) (now : JsDate) (api : Api) :
    SeqCalls (callEvents (V2.driver env now api).events)
    ∧ Precedes (.callEnd (.vnetCreateOrUpdate "samples" ("network" ++ getNameSuffixY now)))
        (.callStart (.ipCreateOrUpdate "samples" ("ip" ++ getNameSuffixY now)))
        (V2.driver env now api).events
    ∧ (callStarts (V2.driver env now api).events).Nodup := by
  obtain ⟨login, listAll1, listAll2, vnetCreate, ipCreate, nicCreate, vmCreate,
    vnetCW, ipCW, nicCW, vmCW, vnetG, ipG, nicG, vmG, vmD, nicD, ipD, vnetD⟩ := api
  rcases env with _ | s
  · refine ⟨?_, ?_, ?_⟩ <;>
    simp [V2.driver, SeqCalls, callEvents, V2.body, V2.deleteVirtualMachine, V1.getAzureClients,
        V1.listVirtualMachines, V1.createVirtualNetwork, V1.createPublicIpAddress,
        V1.createNetworkInterface, V1.defaultNetworkInterfaceParameters,
        V1.createVirtualMachine, getSubscriptionId, tryCatchLogMessageAndJson,
        logLine, logLines, callStarts]
  rcases eq_or_ne s "" with rfl | hs
  · refine ⟨?_, ?_, ?_⟩ <;>
    simp [V2.driver, SeqCalls, callEvents, V2.body, V2.deleteVirtualMachine, V1.getAzureClients,
        V1.listVirtualMachines, V1.createVirtualNetwork, V1.createPublicIpAddress,
        V1.createNetworkInterface, V1.defaultNetworkInterfaceParameters,
        V1.createVirtualMachine, getSubscriptionId, tryCatchLogMessageAndJson,
        logLine, logLines, callStarts]
  rcases login with m | u
  · refine ⟨?_, ?_, ?_⟩ <;>
    simp [V2.driver, SeqCalls, callEvents, V2.body, V2.deleteVirtualMachine, V1.getAzureClients,
        V1.listVirtualMachines, V1.createVirtualNetwork, V1.createPublicIpAddress,
        V1.createNetworkInterface, V1.defaultNetworkInterfaceParameters,
        V1.createVirtualMachine, getSubscriptionId, hs, tryCatchLogMessageAndJson,
        logLine, logLines, callStarts]
  rcases listAll1 with m | vms1
  · refine ⟨?_, ?_, ?_⟩ <;>
    simp [V2.driver, SeqCalls, callEvents, V2.body, V2.deleteVirtualMachine, V1.getAzureClients,
        V1.listVirtualMachines, V1.createVirtualNetwork, V1.createPublicIpAddress,
        V1.createNetworkInterface, V1.defaultNetworkInterfaceParameters,
        V1.createVirtualMachine, getSubscriptionId, hs, tryCatchLogMessageAndJson,
        logLine, logLines, callStarts]
  rcases vnetCreate with m | vn
  · refine ⟨?_, ?_, ?_⟩ <;>
    simp [V2.driver, SeqCalls, callEvents, V2.body, V2.deleteVirtualMachine, V1.getAzureClients,
        V1.listVirtualMachines, V1.createVirtualNetwork, V1.createPublicIpAddress,
        V1.createNetworkInterface, V1.defaultNetworkInterfaceParameters,
        V1.createVirtualMachine, getSubscriptionId, hs, tryCatchLogMessageAndJson,
        logLine, logLines, callStarts]
  rcases ipCreate with m | pip
  · refine ⟨?_, ?_, ?_⟩ <;>
    simp [V2.driver, SeqCalls, callEvents, V2.body, V2.deleteVirtualMachine, V1.getAzureClients,
        V1.listVirtualMachines, V1.createVirtualNetwork, V1.createPublicIpAddress,
        V1.createNetworkInterface, V1.defaultNetworkInterfaceParameters,
        V1.createVirtualMachine, getSubscriptionId, hs, tryCatchLogMessageAndJson,
        logLine, logLines, callStarts]
  obtain ⟨vnName, vnLoc, vnAddr, vnSubs⟩ := vn
  rcases vnSubs with _ | subs
  · refine ⟨?_, ?_, ?_⟩ <;>
    simp [V2.driver, SeqCalls, callEvents, V2.body, V2.deleteVirtualMachine, V1.getAzureClients,
        V1.listVirtualMachines, V1.createVirtualNetwork, V1.createPublicIpAddress,
        V1.createNetworkInterface, V1.defaultNetworkInterfaceParameters,
        V1.createVirtualMachine, getSubscriptionId, hs, tryCatchLogMessageAndJson,
        logLine, logLines, callStarts]
  rcases nicCreate with m | nic
  · refine ⟨?_, ?_, ?_⟩ <;>
    simp [V2.driver, SeqCalls, callEvents, V2.body, V2.deleteVirtualMachine, V1.getAzureClients,
        V1.listVirtualMachines, V1.createVirtualNetwork, V1.createPublicIpAddress,
        V1.createNetworkInterface, V1.defaultNetworkInterfaceParameters,
        V1.createVirtualMachine, getSubscriptionId, hs, tryCatchLogMessageAndJson,
        logLine, logLines, callStarts]
  rcases vmCreate with m | vm
  · refine ⟨?_, ?_, ?_⟩ <;>
    simp [V2.driver, SeqCalls, callEvents, V2.body, V2.deleteVirtualMachine, V1.getAzureClients,
        V1.listVirtualMachines, V1.createVirtualNetwork, V1.createPublicIpAddress,
        V1.createNetworkInterface, V1.defaultNetworkInterfaceParameters,
        V1.createVirtualMachine, getSubscriptionId, hs, tryCatchLogMessageAndJson,
        logLine, logLines, callStarts]
  rcases listAll2 with m | vms2
  · refine ⟨?_, ?_, ?_⟩ <;>
    simp [V2.driver, SeqCalls, callEvents, V2.body, V2.deleteVirtualMachine, V1.getAzureClients,
        V1.listVirtualMachines, V1.createVirtualNetwork, V1.createPublicIpAddress,
        V1.createNetworkInterface, V1.defaultNetworkInterfaceParameters,
        V1.createVirtualMachine, getSubscriptionId, hs, tryCatchLogMessageAndJson,
        logLine, logLines, callStarts]
  rcases vmD with m | _
  · refine ⟨?_, ?_, ?_⟩ <;>
    simp [V2.driver, SeqCalls, callEvents, V2.body, V2.deleteVirtualMachine, V1.getAzureClients,
        V1.listVirtualMachines, V1.createVirtualNetwork, V1.createPublicIpAddress,
        V1.createNetworkInterface, V1.defaultNetworkInterfaceParameters,
        V1.createVirtualMachine, getSubscriptionId, hs, tryCatchLogMessageAndJson,
        logLine, logLines, callStarts]
  refine ⟨?_, ?_, ?_⟩ <;>
    simp [V2.driver, SeqCalls, callEvents, V2.body, V2.deleteVirtualMachine, V1.getAzureClients,
        V1.listVirtualMachines, V1.createVirtualNetwork, V1.createPublicIpAddress,
        V1.createNetworkInterface, V1.defaultNetworkInterfaceParameters,
        V1.createVirtualMachine, getSubscriptionId, hs, tryCatchLogMessageAndJson,
        logLine, logLines, callStarts]

/-! ## Facts about `pad` and the name suffixes -/

theorem pad_two_length : ∀ m < 100, (pad 2 m).length = 2 := by decide

theorem pad_two_digits : ∀ m < 100, ∀ c ∈ (pad 2 m).data, c.isDigit := by decide

theorem pad_two_inj : ∀ a < 100, ∀ b < 100, pad 2 a = pad 2 b → a = b := by decide

theorem yearChunk1 : ∀ y < 1000, (toString (1000 * 1 + y)).length = 4
    ∧ ∀ c ∈ (toString (1000 * 1 + y)).data, c.isDigit := by decide

theorem yearChunk2 : ∀ y < 1000, (toString (1000 * 2 + y)).length = 4
    ∧ ∀ c ∈ (toString (1000 * 2 + y)).data, c.isDigit := by decide

theorem yearChunk3 : ∀ y < 1000, (toString (1000 * 3 + y)).length = 4
    ∧ ∀ c ∈ (toString (1000 * 3 + y)).data, c.isDigit := by decide

theorem yearChunk4 : ∀ y < 1000, (toString (1000 * 4 + y)).length = 4
    ∧ ∀ c ∈ (toString (1000 * 4 + y)).data, c.isDigit := by decide

theorem yearChunk5 : ∀ y < 1000, (toString (1000 * 5 + y)).length = 4
    ∧ ∀ c ∈ (toString (1000 * 5 + y)).data, c.isDigit := by decide

theorem yearChunk6 : ∀ y < 1000, (toString (1000 * 6 + y)).length = 4
    ∧ ∀ c ∈ (toString (1000 * 6 + y)).data, c.isDigit := by decide

theorem yearChunk7 : ∀ y < 1000, (toString (1000 * 7 + y)).length = 4
    ∧ ∀ c ∈ (toString (1000 * 7 + y)).data, c.isDigit := by decide

theorem yearChunk8 : ∀ y < 1000, (toString (1000 * 8 + y)).length = 4
    ∧ ∀ c ∈ (toString (1000 * 8 + y)).data, c.isDigit := by decide

theorem yearChunk9 : ∀ y < 1000, (toString (1000 * 9 + y)).length = 4
    ∧ ∀ c ∈ (toString (1000 * 9 + y)).data, c.isDigit := by decide

/-- The decimal rendering of a four-digit year: 4 characters, all digits. -/
theorem year_repr (y : Nat) (h1 : 1000 ≤ y) (h2 : y ≤ 9999) :
    (toString y).length = 4 ∧ ∀ c ∈ (toString y).data, c.isDigit := by
  obtain ⟨c, r, rfl, hrlt, hc1, hc9⟩ :
      ∃ c r, y = 1000 * c + r ∧ r < 1000 ∧ 1 ≤ c ∧ c ≤ 9 :=
    ⟨y / 1000, y % 1000, by omega, by omega, by omega, by omega⟩
  interval_cases c
  · exact yearChunk1 r hrlt
  · exact yearChunk2 r hrlt
  · exact yearChunk3 r hrlt
  · exact yearChunk4 r hrlt
  · exact yearChunk5 r hrlt
  · exact yearChunk6 r hrlt
  · exact yearChunk7 r hrlt
  · exact yearChunk8 r hrlt
  · exact yearChunk9 r hrlt

theorem getNameSuffix_parts (d : JsDate) (h : ValidDate d) :
    (getNameSuffix d).length = 10 ∧ ∀ c ∈ (getNameSuffix d).data, c.isDigit := by
  obtain ⟨h1, h2, h3, h4, h5, h6⟩ := h
  have lm := pad_two_length d.getMonth (by show d.month < 100; omega)
  have ld := pad_two_length d.getDate (by show d.day < 100; omega)
  have lh := pad_two_length d.getHours (by show d.hour < 100; omega)
  have lmin := pad_two_length d.getMinutes (by show d.minute < 100; omega)
  have ls := pad_two_length d.getSeconds (by show d.second < 100; omega)
  have dm := pad_two_digits d.getMonth (by show d.month < 100; omega)
  have dd := pad_two_digits d.getDate (by show d.day < 100; omega)
  have dh := pad_two_digits d.getHours (by show d.hour < 100; omega)
  have dmin := pad_two_digits d.getMinutes (by show d.minute < 100; omega)
  have ds := pad_two_digits d.getSeconds (by show d.second < 100; omega)
  constructor
  · simp [getNameSuffix, String.length_append, lm, ld, lh, lmin, ls]
  · intro c hc
    simp only [getNameSuffix, String.data_append, List.mem_append] at hc
    rcases hc with ((((hc | hc) | hc) | hc) | hc)
    · exact dm c hc
    · exact dd c hc
    · exact dh c hc
    · exact dmin c hc
    · exact ds c hc

theorem month_component (d : JsDate) (h : ValidDate d) :
    (getNameSuffix d).data.take 2 = (pad 2 d.getMonth).data := by
  have hm : d.getMonth < 100 := by show d.month < 100; have := h.1; omega
  have hlen : (pad 2 d.getMonth).data.length = 2 := pad_two_length d.getMonth hm
  show (String.data (pad 2 d.getMonth ++ pad 2 d.getDate ++ pad 2 d.getHours
    ++ pad 2 d.getMinutes ++ pad 2 d.getSeconds)).take 2 = (pad 2 d.getMonth).data
  simp only [String.data_append, List.append_assoc]
  exact List.take_left' hlen

/-! ## The top-level handler -/

theorem tryCatchLogMessage_of_err (b : Run Unit) (e : String) (h : b.out = .err e) :
    tryCatchLogMessage b = ⟨b.events ++ [.consoleError e], .ok ()⟩ := by
  obtain ⟨ev, o⟩ := b
  cases o <;> simp_all [tryCatchLogMessage]

theorem tryCatchLogMessageAndJson_of_err (b : Run Unit) (e : String) (h : b.out = .err e) :
    tryCatchLogMessageAndJson b
      = ⟨b.events ++ [.consoleError e, .consoleError (jsonStringify e)], .ok ()⟩ := by
  obtain ⟨ev, o⟩ := b
  cases o <;> simp_all [tryCatchLogMessageAndJson]

/-! ## Aborting at a failed network-interface creation -/

/-- If the `V1` NIC-creation call rejects, the run never issues the
VM-creation call and never issues any deletion call. -/
theorem V1_nicFail_cases (env : Option String) (now : JsDate) (api : Api) (e : String)
    (h : api.nicCreate = .error e) :
    (∀ rg nm, Event.callStart (.vmCreateOrUpdate rg nm) ∉ (V1.driver env now api).events)
    ∧ deleteStarts (V1.driver env now api).events = [] := by
  obtain ⟨login, listAll1, listAll2, vnetCreate, ipCreate, nicCreate, vmCreate,
    vnetCW, ipCW, nicCW, vmCW, vnetG, ipG, nicG, vmG, vmD, nicD, ipD, vnetD⟩ := api
  subst h
  rcases env with _ | s
  · refine ⟨fun rg nm => ?_, ?_⟩ <;>
      simp [V1.driver, V1.body, V1.getAzureClients, V1.listVirtualMachines,
        V1.createVirtualNetwork, V1.createPublicIpAddress, V1.createNetworkInterface,
        V1.defaultNetworkInterfaceParameters, getSubscriptionId, tryCatchLogMessage,
        logLine, logLines, deleteStarts]
  rcases eq_or_ne s "" with rfl | hs
  · refine ⟨fun rg nm => ?_, ?_⟩ <;>
      simp [V1.driver, V1.body, V1.getAzureClients, V1.listVirtualMachines,
        V1.createVirtualNetwork, V1.createPublicIpAddress, V1.createNetworkInterface,
        V1.defaultNetworkInterfaceParameters, getSubscriptionId, tryCatchLogMessage,
        logLine, logLines, deleteStarts]
  rcases login with m | u
  · refine ⟨fun rg nm => ?_, ?_⟩ <;>
      simp [V1.driver, V1.body, V1.getAzureClients, V1.listVirtualMachines,
        V1.createVirtualNetwork, V1.createPublicIpAddress, V1.createNetworkInterface,
        V1.defaultNetworkInterfaceParameters, getSubscriptionId, tryCatchLogMessage,
        logLine, logLines, deleteStarts, hs]
  rcases listAll1 with m | vms1
  · refine ⟨fun rg nm => ?_, ?_⟩ <;>
      simp [V1.driver, V1.body, V1.getAzureClients, V1.listVirtualMachines,
        V1.createVirtualNetwork, V1.createPublicIpAddress, V1.createNetworkInterface,
        V1.defaultNetworkInterfaceParameters, getSubscriptionId, tryCatchLogMessage,
        logLine, logLines, deleteStarts, hs]
  rcases vnetCreate with m | vn
  · refine ⟨fun rg nm => ?_, ?_⟩ <;>
      simp [V1.driver, V1.body, V1.getAzureClients, V1.listVirtualMachines,
        V1.createVirtualNetwork, V1.createPublicIpAddress, V1.createNetworkInterface,
        V1.defaultNetworkInterfaceParameters, getSubscriptionId, tryCatchLogMessage,
        logLine, logLines, deleteStarts, hs]
  rcases ipCreate with m | pip
  · refine ⟨fun rg nm => ?_, ?_⟩ <;>
      simp [V1.driver, V1.body, V1.getAzureClients, V1.listVirtualMachines,
        V1.createVirtualNetwork, V1.createPublicIpAddress, V1.createNetworkInterface,
        V1.defaultNetworkInterfaceParameters, getSubscriptionId, tryCatchLogMessage,
        logLine, logLines, deleteStarts, hs]
  obtain ⟨vnName, vnLoc, vnAddr, vnSubs⟩ := vn
  rcases vnSubs with _ | subs
  · refine ⟨fun rg nm => ?_, ?_⟩ <;>
      simp [V1.driver, V1.body, V1.getAzureClients, V1.listVirtualMachines,
        V1.createVirtualNetwork, V1.createPublicIpAddress, V1.createNetworkInterface,
        V1.defaultNetworkInterfaceParameters, getSubscriptionId, tryCatchLogMessage,
        logLine, logLines, deleteStarts, hs]
  refine ⟨fun rg nm => ?_, ?_⟩ <;>
      simp [V1.driver, V1.body, V1.getAzureClients, V1.listVirtualMachines,
        V1.createVirtualNetwork, V1.createPublicIpAddress, V1.createNetworkInterface,
        V1.defaultNetworkInterfaceParameters, getSubscriptionId, tryCatchLogMessage,
        logLine, logLines, deleteStarts, hs]

/-- If the `P0` NIC-creation call rejects, the run never issues the
VM-creation call and never issues any deletion call. -/
theorem P0_nicFail_cases (env : Option String) (now : JsDate) (api : Api) (e : String)
    (h : api.nicCreateWait = .error e) :
    (∀ rg nm, Event.callStart (.vmCreateOrUpdate rg nm) ∉ (P0.driver env now api).events)
    ∧ deleteStarts (P0.driver env now api).events = [] := by
  obtain ⟨login, listAll1, listAll2, vnetCreate, ipCreate, nicCreate, vmCreate,
    vnetCW, ipCW, nicCW, vmCW, vnetG, ipG, nicG, vmG, vmD, nicD, ipD, vnetD⟩ := api
  subst h
  rcases env with _ | s
  · refine ⟨fun rg nm => ?_, ?_⟩ <;>
      simp [P0.driver, P0.body, P0.getAzureClients, P0.listVirtualMachines,
        P0.createVirtualNetwork, P0.createPublicIpAddress, P0.createNetworkInterface,
        P0.defaultNetworkInterfaceParameters, getSubscriptionId, tryCatchLogMessage,
        logLine, logLines, deleteStarts]
  rcases eq_or_ne s "" with rfl | hs
  · refine ⟨fun rg nm => ?_, ?_⟩ <;>
      simp [P0.driver, P0.body, P0.getAzureClients, P0.listVirtualMachines,
        P0.createVirtualNetwork, P0.createPublicIpAddress, P0.createNetworkInterface,
        P0.defaultNetworkInterfaceParameters, getSubscriptionId, tryCatchLogMessage,
        logLine, logLines, deleteStarts]
  rcases listAll1 with m | vms1
  · refine ⟨fun rg nm => ?_, ?_⟩ <;>
      simp [P0.driver, P0.body, P0.getAzureClients, P0.listVirtualMachines,
        P0.createVirtualNetwork, P0.createPublicIpAddress, P0.createNetworkInterface,
        P0.defaultNetworkInterfaceParameters, getSubscriptionId, tryCatchLogMessage,
        logLine, logLines, deleteStarts, hs]
  rcases vnetCW with m | _
  · refine ⟨fun rg nm => ?_, ?_⟩ <;>
      simp [P0.driver, P0.body, P0.getAzureClients, P0.listVirtualMachines,
        P0.createVirtualNetwork, P0.createPublicIpAddress, P0.createNetworkInterface,
        P0.defaultNetworkInterfaceParameters, getSubscriptionId, tryCatchLogMessage,
        logLine, logLines, deleteStarts, hs]
  rcases vnetG with m | vn
  · refine ⟨fun rg nm => ?_, ?_⟩ <;>
      simp [P0.driver, P0.body, P0.getAzureClients, P0.listVirtualMachines,
        P0.createVirtualNetwork, P0.createPublicIpAddress, P0.createNetworkInterface,
        P0.defaultNetworkInterfaceParameters, getSubscriptionId, tryCatchLogMessage,
        logLine, logLines, deleteStarts, hs]
  rcases ipCW with m | _
  · refine ⟨fun rg nm => ?_, ?_⟩ <;>
      simp [P0.driver, P0.body, P0.getAzureClients, P0.listVirtualMachines,
        P0.createVirtualNetwork, P0.createPublicIpAddress, P0.createNetworkInterface,
        P0.defaultNetworkInterfaceParameters, getSubscriptionId, tryCatchLogMessage,
        logLine, logLines, deleteStarts, hs]
  rcases ipG with m | pip
  · refine ⟨fun rg nm => ?_, ?_⟩ <;>
      simp [P0.driver, P0.body, P0.getAzureClients, P0.listVirtualMachines,
        P0.createVirtualNetwork, P0.createPublicIpAddress, P0.createNetworkInterface,
        P0.defaultNetworkInterfaceParameters, getSubscriptionId, tryCatchLogMessage,
        logLine, logLines, deleteStarts, hs]
  obtain ⟨vnName, vnLoc, vnAddr, vnSubs⟩ := vn
  rcases vnSubs with _ | subs
  · refine ⟨fun rg nm => ?_, ?_⟩ <;>
      simp [P0.driver, P0.body, P0.getAzureClients, P0.listVirtualMachines,
        P0.createVirtualNetwork, P0.createPublicIpAddress, P0.createNetworkInterface,
        P0.defaultNetworkInterfaceParameters, getSubscriptionId, tryCatchLogMessage,
        logLine, logLines, deleteStarts, hs]
  refine ⟨fun rg nm => ?_, ?_⟩ <;>
      simp [P0.driver, P0.body, P0.getAzureClients, P0.listVirtualMachines,
        P0.createVirtualNetwork, P0.createPublicIpAddress, P0.createNetworkInterface,
        P0.defaultNetworkInterfaceParameters, getSubscriptionId, tryCatchLogMessage,
        logLine, logLines, deleteStarts, hs]

/-! ## The claims -/

/-- Claim C1: in every run of the `V1` (index.ts) and `P0` (part_000)
orchestration drivers, the deletion calls issued form a front segment of the
fixed teardown sequence VM, NIC, Public IP, VNet — so whenever the run reaches
teardown, deletions execute in the exact reverse of the creation dependency
order: the virtual machine before the network interface, the network interface
before the public IP address, and the public IP address before the virtual
network. -/
theorem C1_deletion_reverse_order (env : Option String) (now : JsDate) (api : Api) :
    (∃ k, deleteStarts (V1.driver env now api).events
        = (teardownCalls "samples" (getNameSuffix now)).take k)
    ∧ (∃ k, deleteStarts (P0.driver env now api).events
        = (teardownCalls "samples" (getNameSuffix now)).take k) :=
  ⟨(V1_driver_cases env now api).1, (P0_driver_cases env now api).1⟩

/-- Claim C2: with `AZURE_SUBSCRIPTION_ID` unset, every variant's driver
prints the diagnostic, exits with code 1, and issues no remote call at all
(no credential acquisition, no remote operation). -/
theorem C2_missing_subscription_id (now : JsDate) (api : Api) :
    ((V1.driver none now api).events
        = [.consoleError "Please set Azure subscription environmental variable", .exitProc 1]
      ∧ processExitCode (V1.driver none now api) = 1
      ∧ callEvents (V1.driver none now api).events = [])
    ∧ ((V2.driver none now api).events
        = [.consoleError "Please set Azure subscription environmental variable", .exitProc 1]
      ∧ processExitCode (V2.driver none now api) = 1
      ∧ callEvents (V2.driver none now api).events = [])
    ∧ ((P0.driver none now api).events
        = [.consoleError "Please set Azure subscription environmental variable", .exitProc 1]
      ∧ processExitCode (P0.driver none now api) = 1
      ∧ callEvents (P0.driver none now api).events = []) :=
  ⟨⟨rfl, rfl, rfl⟩, ⟨rfl, rfl, rfl⟩, ⟨rfl, rfl, rfl⟩⟩

/-- Claim C3 is violated by `V1` (`src/index.ts`): its `deleteResource` emits
the "deleted successfully" line right after initiating `deleteMethod`, without
awaiting the promise — the events it emits contain the success log but no
completion; in the all-success `V1` run the success log strictly precedes the
remote delete's completion, whereas the `P0` variant does complete the remote
delete before logging. -/
theorem C3_success_logged_before_completion :
    (V1.deleteResource "samples" "vm0307090501" (.vmDelete "samples" "vm0307090501")
      = [.consoleLog "Deleting \"vm0307090501\" resource in samples resource group",
         .callStart (.vmDelete "samples" "vm0307090501"),
         .consoleLog "Resource \"vm0307090501\" deleted successfully."])
    ∧ Event.callEnd (.vmDelete "samples" "vm0307090501")
        ∉ V1.deleteResource "samples" "vm0307090501" (.vmDelete "samples" "vm0307090501")
    ∧ ¬ Precedes (.callEnd (.vmDelete "samples" "vm0307090501"))
        (.consoleLog "Resource \"vm0307090501\" deleted successfully.")
        (V1.driver (some "sub") sampleDate apiAllOk).events
    ∧ Precedes (.callEnd (.vmDelete "samples" "vm0307090501"))
        (.consoleLog "Resource \"vm0307090501\" deleted successfully.")
        (P0.driver (some "sub") sampleDate apiAllOk).events :=
  ⟨rfl, by decide, by decide, by decide⟩

/-- Claim C4 as stated is false: the year-including variant does not produce
12 digits — at the sample date (year 2019) it produces 14 characters. -/
theorem C4_counterexample_year_width :
    (getNameSuffixY sampleDate).length = 14 ∧ ¬ (getNameSuffixY sampleDate).length = 12 :=
  ⟨by decide, by decide⟩

/-- Claim C4 (amended): for every valid timestamp the no-year helper returns a
fixed-width numeric string of exactly 10 digits, the zero-padded 2-digit
month, day, hour, minute and second fields concatenated; the year-including
variant prepends the unpadded decimal year (so 14 characters, all digits, for
four-digit years, not 12); both are deterministic in the timestamp. -/
theorem C4_suffix_shape (d : JsDate) (h : ValidDate d) :
    (getNameSuffix d).length = 10
    ∧ (∀ c ∈ (getNameSuffix d).data, c.isDigit)
    ∧ getNameSuffix d
        = pad 2 d.getMonth ++ pad 2 d.getDate ++ pad 2 d.getHours
            ++ pad 2 d.getMinutes ++ pad 2 d.getSeconds
    ∧ getNameSuffixY d = toString d.getFullYear ++ getNameSuffix d
    ∧ (1000 ≤ d.getFullYear → d.getFullYear ≤ 9999 →
        (getNameSuffixY d).length = 14 ∧ ∀ c ∈ (getNameSuffixY d).data, c.isDigit)
    ∧ (∀ d', d' = d → getNameSuffix d' = getNameSuffix d
        ∧ getNameSuffixY d' = getNameSuffixY d) := by
  obtain ⟨hlen10, hdig⟩ := getNameSuffix_parts d h
  have hy : getNameSuffixY d = toString d.getFullYear ++ getNameSuffix d := by
    simp [getNameSuffixY, getNameSuffix, String.append_assoc]
  refine ⟨hlen10, hdig, rfl, hy, fun hy1 hy2 => ?_, fun d' hd' => by subst hd'; exact ⟨rfl, rfl⟩⟩
  obtain ⟨hylen, hydig⟩ := year_repr d.getFullYear hy1 hy2
  constructor
  · rw [hy, String.length_append, hylen, hlen10]
  · intro c hc
    rw [hy] at hc
    simp only [String.data_append, List.mem_append] at hc
    rcases hc with hc | hc
    · exact hydig c hc
    · exact hdig c hc

/-- Claim C5: a timestamp whose month field (as `Date.getMonth()` reports it)
is 3, with day 7, hour 9, minute 5, second 1, yields the concatenation
`"03070905" + "01"`, i.e. the string `"0307090501"`, whatever the year. -/
theorem C5_sample_suffix (y : Nat) :
    getNameSuffix { year := y, month := 3, day := 7, hour := 9, minute := 5, second := 1 }
      = "0307090501" := by
  simp only [getNameSuffix, JsDate.getMonth, JsDate.getDate, JsDate.getHours,
    JsDate.getMinutes, JsDate.getSeconds]
  decide

/-- Claim C6: if the network-interface creation call rejects, the VM-creation
call is never issued and no deletion call is ever issued, in both the `V1`
and `P0` drivers. -/
theorem C6_nic_failure_stops_run (env : Option String) (now : JsDate) (api : Api)
    (e₁ e₂ : String) :
    (api.nicCreate = .error e₁ →
      (∀ rg nm, Event.callStart (.vmCreateOrUpdate rg nm) ∉ (V1.driver env now api).events)
      ∧ deleteStarts (V1.driver env now api).events = [])
    ∧ (api.nicCreateWait = .error e₂ →
      (∀ rg nm, Event.callStart (.vmCreateOrUpdate rg nm) ∉ (P0.driver env now api).events)
      ∧ deleteStarts (P0.driver env now api).events = []) :=
  ⟨fun h => V1_nicFail_cases env now api e₁ h, fun h => P0_nicFail_cases env now api e₂ h⟩

/-- Claim C7: when the body of a driver finishes with a pending exception, the
single top-level handler appends exactly the logging of that error's message
(for `V2` also the serialized error object) — the failure reaches it
unmodified — the process then finishes with exit code 0, and no call site is
ever issued twice (no retry). -/
theorem C7_top_level_handler (env : Option String) (now : JsDate) (api : Api) (e : String) :
    ((V1.body env now api).out = .err e →
      (V1.driver env now api).events = (V1.body env now api).events ++ [.consoleError e]
      ∧ processExitCode (V1.driver env now api) = 0)
    ∧ ((V2.body env now api).out = .err e →
      (V2.driver env now api).events
        = (V2.body env now api).events
            ++ [.consoleError e, .consoleError (jsonStringify e)]
      ∧ processExitCode (V2.driver env now api) = 0)
    ∧ ((P0.body env now api).out = .err e →
      (P0.driver env now api).events = (P0.body env now api).events ++ [.consoleError e]
      ∧ processExitCode (P0.driver env now api) = 0)
    ∧ (callStarts (V1.driver env now api).events).Nodup
    ∧ (callStarts (V2.driver env now api).events).Nodup
    ∧ (callStarts (P0.driver env now api).events).Nodup := by
  refine ⟨fun h => ?_, fun h => ?_, fun h => ?_,
    (V1_driver_cases env now api).2.2.2, (V2_driver_cases env now api).2.2,
    (P0_driver_cases env now api).2.2.2⟩
  · show (tryCatchLogMessage (V1.body env now api)).events = _
      ∧ processExitCode (tryCatchLogMessage (V1.body env now api)) = 0
    rw [tryCatchLogMessage_of_err _ e h]
    exact ⟨rfl, rfl⟩
  · show (tryCatchLogMessageAndJson (V2.body env now api)).events = _
      ∧ processExitCode (tryCatchLogMessageAndJson (V2.body env now api)) = 0
    rw [tryCatchLogMessageAndJson_of_err _ e h]
    exact ⟨rfl, rfl⟩
  · show (tryCatchLogMessage (P0.body env now api)).events = _
      ∧ processExitCode (tryCatchLogMessage (P0.body env now api)) = 0
    rw [tryCatchLogMessage_of_err _ e h]
    exact ⟨rfl, rfl⟩

/-- Claim C8: in every `V1` and `P0` run the remote calls are strictly
sequential — each issued call settles before the next is issued — and in
particular the public-IP creation is not issued until the virtual-network
creation has completed. -/
theorem C8_strictly_sequential (env : Option String) (now : JsDate) (api : Api) :
    (SeqCalls (callEvents (V1.driver env now api).events)
      ∧ Precedes (.callEnd (.vnetCreateOrUpdate "samples" ("network" ++ getNameSuffix now)))
          (.callStart (.ipCreateOrUpdate "samples" ("ip" ++ getNameSuffix now)))
          (V1.driver env now api).events)
    ∧ (SeqCalls (callEvents (V2.driver env now api).events)
      ∧ Precedes (.callEnd (.vnetCreateOrUpdate "samples" ("network" ++ getNameSuffixY now)))
          (.callStart (.ipCreateOrUpdate "samples" ("ip" ++ getNameSuffixY now)))
          (V2.driver env now api).events)
    ∧ (SeqCalls (callEvents (P0.driver env now api).events)
      ∧ Precedes (.callEnd (.vnetCreateOrUpdate "samples" ("network" ++ getNameSuffix now)))
          (.callStart (.ipCreateOrUpdate "samples" ("ip" ++ getNameSuffix now)))
          (P0.driver env now api).events) :=
  ⟨⟨(V1_driver_cases env now api).2.1, (V1_driver_cases env now api).2.2.1⟩,
   ⟨(V2_driver_cases env now api).1, (V2_driver_cases env now api).2.1⟩,
   ⟨(P0_driver_cases env now api).2.1, (P0_driver_cases env now api).2.2.1⟩⟩

/-- Claim C9: the default parameters of `createNetworkInterface` dereference
the virtual network's subnet list at index 0 behind a non-null assertion with
no emptiness guard: the construction throws exactly when `subnets` is
undefined, yields an `undefined` subnet reference when the list is empty, and
under the precondition that `subnets` is defined and non-empty it always
references the first subnet (the undefined branches are unreachable). -/
theorem C9_default_nic_parameters (name location : String) (vnet : VirtualNetwork)
    (pip : PublicIPAddress) :
    ((∃ e, (V1.defaultNetworkInterfaceParameters name vnet pip).out = Outcome.err e)
        ↔ vnet.subnets = none)
    ∧ (∀ s rest, vnet.subnets = some (s :: rest) →
        (V1.defaultNetworkInterfaceParameters name vnet pip).out = Outcome.ok
          { location := some "eastus2"
            ipConfigurations := some [{ name := some name
                                        privateIPAllocationMethod := some "Dynamic"
                                        subnet := some s
                                        publicIPAddress := some pip }] })
    ∧ (vnet.subnets = some [] →
        (V1.defaultNetworkInterfaceParameters name vnet pip).out = Outcome.ok
          { location := some "eastus2"
            ipConfigurations := some [{ name := some name
                                        privateIPAllocationMethod := some "Dynamic"
                                        subnet := none
                                        publicIPAddress := some pip }] })
    ∧ ((∃ e, (P0.defaultNetworkInterfaceParameters location name vnet pip).out
          = Outcome.err e) ↔ vnet.subnets = none)
    ∧ (∀ s rest, vnet.subnets = some (s :: rest) →
        (P0.defaultNetworkInterfaceParameters location name vnet pip).out = Outcome.ok
          { location := some location
            ipConfigurations := some [{ name := some name
                                        privateIPAllocationMethod := some "Dynamic"
                                        subnet := some s
                                        publicIPAddress := some pip }] })
    ∧ (vnet.subnets = some [] →
        (P0.defaultNetworkInterfaceParameters location name vnet pip).out = Outcome.ok
          { location := some location
            ipConfigurations := some [{ name := some name
                                        privateIPAllocationMethod := some "Dynamic"
                                        subnet := none
                                        publicIPAddress := some pip }] }) := by
  obtain ⟨vn, vl, va, vs⟩ := vnet
  rcases vs with _ | l
  · refine ⟨?_, ?_, ?_, ?_, ?_, ?_⟩ <;>
      simp [V1.defaultNetworkInterfaceParameters, P0.defaultNetworkInterfaceParameters]
  · rcases l with _ | ⟨s0, rest0⟩ <;>
      refine ⟨?_, ?_, ?_, ?_, ?_, ?_⟩ <;>
      simp [V1.defaultNetworkInterfaceParameters, P0.defaultNetworkInterfaceParameters]

/-- Claim C10: the month component embedded in the name suffix is the
zero-based `Date.getMonth()` index — the calendar month minus one, zero-padded
to two digits — and never the calendar month number itself. -/
theorem C10_month_zero_based (d : JsDate) (h : ValidDate d) :
    (getNameSuffix d).data.take 2 = (pad 2 d.getMonth).data
    ∧ (getNameSuffix d).data.take 2 = (pad 2 (calendarMonth d - 1)).data
    ∧ (getNameSuffix d).data.take 2 ≠ (pad 2 (calendarMonth d)).data := by
  have hm : d.getMonth < 100 := by show d.month < 100; have := h.1; omega
  have h1 := month_component d h
  have hcm : calendarMonth d - 1 = d.getMonth := by
    show d.month + 1 - 1 = d.month; omega
  refine ⟨h1, by rw [hcm]; exact h1, fun hbad => ?_⟩
  have heq : (pad 2 d.getMonth).data = (pad 2 (calendarMonth d)).data := h1 ▸ hbad
  have heqs : pad 2 d.getMonth = pad 2 (calendarMonth d) := congrArg String.mk heq
  have : d.getMonth = calendarMonth d :=
    pad_two_inj d.getMonth hm (calendarMonth d)
      (by show d.month + 1 < 100; have := h.1; omega) heqs
  have : d.month = d.month + 1 := this
  omega

/-! ## Witnesses: the claims with hypotheses, at concrete inputs -/

theorem C4_suffix_shape_witness :
    ValidDate sampleDate
    ∧ (getNameSuffix sampleDate).length = 10
    ∧ (getNameSuffixY sampleDate).length = 14 :=
  ⟨by decide, (C4_suffix_shape sampleDate (by decide)).1,
   ((C4_suffix_shape sampleDate (by decide)).2.2.2.2.1 (by decide) (by decide)).1⟩

theorem C6_nic_failure_witness :
    apiNicFail.nicCreate = Except.error "nic-boom"
    ∧ apiNicFail.nicCreateWait = Except.error "nic-boom"
    ∧ ((∀ rg nm, Event.callStart (.vmCreateOrUpdate rg nm)
          ∉ (V1.driver (some "sub") sampleDate apiNicFail).events)
        ∧ deleteStarts (V1.driver (some "sub") sampleDate apiNicFail).events = [])
    ∧ ((∀ rg nm, Event.callStart (.vmCreateOrUpdate rg nm)
          ∉ (P0.driver (some "sub") sampleDate apiNicFail).events)
        ∧ deleteStarts (P0.driver (some "sub") sampleDate apiNicFail).events = []) :=
  ⟨rfl, rfl,
   (C6_nic_failure_stops_run (some "sub") sampleDate apiNicFail "nic-boom" "nic-boom").1 rfl,
   (C6_nic_failure_stops_run (some "sub") sampleDate apiNicFail "nic-boom" "nic-boom").2 rfl⟩

theorem C7_top_level_handler_witness :
    (V1.body (some "sub") sampleDate apiVnetFail).out = Outcome.err "boom"
    ∧ (V2.body (some "sub") sampleDate apiVnetFail).out = Outcome.err "boom"
    ∧ (P0.body (some "sub") sampleDate apiVnetFail).out = Outcome.err "boom"
    ∧ ((V1.driver (some "sub") sampleDate apiVnetFail).events
        = (V1.body (some "sub") sampleDate apiVnetFail).events ++ [.consoleError "boom"]
      ∧ processExitCode (V1.driver (some "sub") sampleDate apiVnetFail) = 0)
    ∧ ((V2.driver (some "sub") sampleDate apiVnetFail).events
        = (V2.body (some "sub") sampleDate apiVnetFail).events
            ++ [.consoleError "boom", .consoleError (jsonStringify "boom")]
      ∧ processExitCode (V2.driver (some "sub") sampleDate apiVnetFail) = 0)
    ∧ ((P0.driver (some "sub") sampleDate apiVnetFail).events
        = (P0.body (some "sub") sampleDate apiVnetFail).events ++ [.consoleError "boom"]
      ∧ processExitCode (P0.driver (some "sub") sampleDate apiVnetFail) = 0) :=
  ⟨by decide, by decide, by decide,
   (C7_top_level_handler (some "sub") sampleDate apiVnetFail "boom").1 (by decide),
   (C7_top_level_handler (some "sub") sampleDate apiVnetFail "boom").2.1 (by decide),
   (C7_top_level_handler (some "sub") sampleDate apiVnetFail "boom").2.2.1 (by decide)⟩

theorem C9_default_nic_parameters_witness :
    vnetFixture.subnets = some (subnetFixture :: [])
    ∧ (V1.defaultNetworkInterfaceParameters "nic0307090501" vnetFixture {}).out
        = Outcome.ok { location := some "eastus2"
                       ipConfigurations := some [{ name := some "nic0307090501"
                                                   privateIPAllocationMethod := some "Dynamic"
                                                   subnet := some subnetFixture
                                                   publicIPAddress := some {} }] } :=
  ⟨rfl, (C9_default_nic_parameters "nic0307090501" "eastus" vnetFixture {}).2.1
      subnetFixture [] rfl⟩

theorem C10_month_zero_based_witness :
    ValidDate sampleDate
    ∧ (getNameSuffix sampleDate).data.take 2 = (pad 2 (calendarMonth sampleDate - 1)).data
    ∧ (getNameSuffix sampleDate).data.take 2 ≠ (pad 2 (calendarMonth sampleDate)).data :=
  ⟨by decide, (C10_month_zero_based sampleDate (by decide)).2.1,
   (C10_month_zero_based sampleDate (by decide)).2.2⟩

end VmSample
